import Mathlib

/-!
Verification development for the Suparank MCP content-production core.

This file shallowly embeds the parts of the repository that the checked
properties are about:

* the workflow plan builder (`src/mcp-client/workflow/planner.js`:
  `validateProjectConfig`, `buildWorkflowPlan`),
* the session state service (`src/mcp-client/services/session-state.js`:
  `isSessionExpired`, `saveSession`, `restoreSession`, `resetSession`,
  `clearSessionFile`),
* the resilient HTTP client (`src/mcp-client/services/api.js`:
  `fetchWithTimeout`, `fetchWithRetry`),
* the orchestrator tool handlers (`src/mcp-client/handlers/orchestrator.js`:
  `handleSaveContent`, `handlePublishContent`, `handleRemoveArticle`,
  `handleClearSession`, `handleLoadContent`, `handleCreateContent`),
* the content utilities (`src/mcp-client/utils/content.js`:
  `injectImagesIntoContent`).

JavaScript is modelled as follows: JS numbers in the relevant code paths are
integers, modelled as `Nat`/`Int`; optional / possibly-`undefined` values are
`Option`; JS string falsiness (`undefined`, `null`, `""` are falsy) is made
explicit in the `jsStr`/`jsOrStr`/`jsTruthyStr` helpers; thrown exceptions
become `Except` or explicit result constructors; external effects (the
publishers, the file system, timers, `Date.now()`) are passed in as explicit
oracle arguments.
-/

/-! ## JavaScript-semantics helpers -/

/-- Interpolating a possibly-`undefined` JS value into a template string:
`undefined` renders as the string `"undefined"`. -/
def jsStr : Option String → String
  | some s => s
  | none => "undefined"

/-- JS `x || fallback` for a string `x`: `undefined`, `null` and `""` are
falsy. -/
def jsOrStr (o : Option String) (fallback : String) : String :=
  match o with
  | some s => if s = "" then fallback else s
  | none => fallback

/-- JS truthiness of a possibly-`undefined` string. -/
def jsTruthyStr : Option String → Bool
  | some s => s != ""
  | none => false

/-- JS truthiness of a possibly-`undefined` boolean. -/
def jsTruthyBool : Option Bool → Bool
  | some b => b
  | none => false

/-- Length of `str.split(/\s+/)` in JS: one more than the number of maximal
whitespace runs in the string (`""` gives `[""]`, i.e. length 1). -/
def jsSplitWsLen (s : String) : Nat :=
  let rec go : List Char → Bool → Nat
    | [], _ => 0
    | c :: cs, inRun =>
      if c.isWhitespace then (if inRun then 0 else 1) + go cs true
      else go cs false
  1 + go s.toList false

/-- Whether `needle` is a prefix of `hay` (character lists). -/
def startsWith : List Char → List Char → Bool
  | [], _ => true
  | _ :: _, [] => false
  | n :: ns, h :: hs => n == h && startsWith ns hs

/-- Whether `needle` occurs as a contiguous substring of `hay`
(character lists). -/
def containsSub (needle : List Char) : List Char → Bool
  | [] => startsWith needle []
  | h :: hs => startsWith needle (h :: hs) || containsSub needle hs

/-- A string `instr` carries the 1-based article index `n` and the total
count `c` when the progress header `ARTICLE n OF c` occurs in it (this is
exactly the header `buildWorkflowPlan` interpolates into multi-article
write steps). -/
def carriesIndexAndTotal (n c : Nat) (instr : String) : Prop :=
  ∃ pre post : String,
    instr = pre ++ ("ARTICLE " ++ toString n ++ " OF " ++ toString c) ++ post


/-! ## Data model

`Article` and `SessionState` mirror the objects built by
`handleSaveContent` and the `sessionState` literal of
`src/mcp-client/services/session-state.js`; `WorkflowPlan`, `Step` and the
settings records mirror the object returned by `buildWorkflowPlan`.
Timestamps (`Date.now()`, ISO strings) are modelled as epoch milliseconds. -/

structure Article where
  id : String
  title : String
  content : String
  keywords : List String
  metaDescription : String
  metaTitle : String
  imageUrl : Option String
  inlineImages : List String
  savedAt : Nat
  published : Bool
  publishedTo : List String
  publishedAt : Option Nat := none
  wordCount : Nat
  loadedFrom : Option String := none
deriving DecidableEq, Repr

/-- One workflow step as pushed by `buildWorkflowPlan` (`step` is the 1-based
sequence number assigned by the `stepNum++` counter). -/
structure Step where
  step : Nat
  type : String
  action : String
  instruction : String
  image_count : Option Nat := none
  targets : Option (List String) := none
  store : Option String := none
deriving DecidableEq, Repr

/-- A step before its sequence number is assigned. -/
structure ProtoStep where
  type : String
  action : String
  instruction : String
  image_count : Option Nat := none
  targets : Option (List String) := none
  store : Option String := none
deriving DecidableEq, Repr

/-- `stepNum` starts at 0 and is incremented before every push, so the k-th
pushed step (0-based k) carries sequence number `k + 1`. -/
def numberSteps (ps : List ProtoStep) : List Step :=
  ps.enum.map (fun p =>
    { step := p.1 + 1, type := p.2.type, action := p.2.action,
      instruction := p.2.instruction, image_count := p.2.image_count,
      targets := p.2.targets, store := p.2.store })

structure ProjectInfo where
  name : Option String
  url : Option String
  niche : Option String
deriving DecidableEq, Repr

structure PlanSettings where
  article_count : Nat
  target_word_count : Nat
  reading_level : Option Nat
  reading_level_display : String
  brand_voice : Option String
  target_audience : Option String
  include_images : Option Bool
  total_images : Nat
  content_images : Nat
  visual_style : Option String
  primary_keywords : List String
  geo_focus : Option String
deriving DecidableEq, Repr

structure AvailableIntegrations where
  external_mcps : List String
  ghost : Bool
  wordpress : Bool
  image_generation : Bool
deriving DecidableEq, Repr

structure WorkflowPlan where
  workflow_id : String
  request : String
  total_articles : Nat
  current_article : Nat
  total_steps : Nat
  current_step : Nat
  project_info : ProjectInfo
  settings : PlanSettings
  available_integrations : AvailableIntegrations
  steps : List Step
deriving DecidableEq, Repr

/-! ## Project configuration (database schema accessed by the planner) -/

structure ContentConfig where
  default_word_count : Option Nat := none
  reading_level : Option Nat := none
  include_images : Option Bool := none
deriving DecidableEq, Repr

structure BrandConfig where
  voice : Option String := none
  target_audience : Option String := none
  differentiators : Option (List String) := none
deriving DecidableEq, Repr

structure VisualStyleConfig where
  image_aesthetic : Option String := none
  colors : Option (List String) := none
deriving DecidableEq, Repr

structure SeoConfig where
  primary_keywords : Option (List String) := none
  geo_focus : Option String := none
deriving DecidableEq, Repr

structure SiteConfig where
  niche : Option String := none
  name : Option String := none
  url : Option String := none
  description : Option String := none
deriving DecidableEq, Repr

structure ProjectConfig where
  content : ContentConfig := {}
  brand : BrandConfig := {}
  visual_style : VisualStyleConfig := {}
  seo : SeoConfig := {}
  site : SiteConfig := {}
deriving DecidableEq, Repr

structure Project where
  config : Option ProjectConfig := none
  niche : Option String := none
deriving DecidableEq, Repr

/-- External MCP entry from `credentials.json`. -/
structure ExternalMcp where
  name : String
  available_tools : Option (List String) := none
deriving DecidableEq, Repr

/-- Credential-derived environment read by the planner
(`hasCredential('ghost'|'wordpress'|'image')`, `getExternalMCPs()`,
`getCompositionHints('keyword_research')`). -/
structure PlannerEnv where
  hasGhost : Bool
  hasWordPress : Bool
  hasImageGen : Bool
  externalMcps : List ExternalMcp
  keywordResearchHints : Option String
deriving DecidableEq, Repr

/-! ## Workflow planner (`src/mcp-client/workflow/planner.js`) -/

/-- `validateProjectConfig(config)`: throws (returns `.error`) if the config
is missing or any required field is missing or out of bounds, with the error
payload enumerating every offending field; otherwise returns the list of
non-blocking warnings. -/
def validateProjectConfig (config : Option ProjectConfig) :
    Except String (List String) :=
  match config with
  | none => .error
      "Project configuration not found. Please configure your project in the dashboard."
  | some cfg =>
    let wordCountErrors :=
      match cfg.content.default_word_count with
      | none => ["Word count: Not set → Dashboard → Project Settings → Content"]
      | some w =>
        if w = 0 then
          ["Word count: Not set → Dashboard → Project Settings → Content"]
        else if w < 100 then ["Word count: Must be at least 100 words"]
        else if w > 10000 then ["Word count: Maximum 10,000 words supported"]
        else []
    let errors := wordCountErrors
      ++ (if jsTruthyStr cfg.brand.voice then [] else
          ["Brand voice: Not set → Dashboard → Project Settings → Brand"])
      ++ (if jsTruthyStr cfg.site.niche then [] else
          ["Niche: Not set → Dashboard → Project Settings → Site"])
    let warnings :=
      (match cfg.seo.primary_keywords with
        | some (_ :: _) => []
        | _ => ["No primary keywords set - content may lack SEO focus"])
      ++ (if jsTruthyStr cfg.brand.target_audience then [] else
          ["No target audience set - content may be too generic"])
    if errors.isEmpty then .ok warnings
    else .error ("Project configuration incomplete:
"
      ++ String.intercalate "
" (errors.map (fun e => "  - " ++ e)))

/-- `readingLevel ? 'Grade N' : 'Not set'` (0 is falsy in JS). -/
def readingLevelDisplayOf (readingLevel : Option Nat) : String :=
  match readingLevel with
  | some n => if n = 0 then "Not set" else "Grade " ++ toString n
  | none => "Not set"

def keywordsDisplayOf (primaryKeywords : List String) : String :=
  if primaryKeywords.length > 0 then String.intercalate ", " primaryKeywords
  else "No keywords set"

def colorsDisplayOf (brandColors : List String) : String :=
  if brandColors.length > 0 then String.intercalate ", " brandColors
  else "Not specified"

/-- `m.available_tools?.join(', ') || 'tools available'` (an empty join is
falsy). -/
def mcpToolsDisplay (m : ExternalMcp) : String :=
  match m.available_tools with
  | some ts => if ts.isEmpty then "tools available"
      else String.intercalate ", " ts
  | none => "tools available"

def mcpInstructionsOf (externalMcps : List ExternalMcp)
    (keywordResearchHints : Option String) : String :=
  if externalMcps.isEmpty then ""
  else
    "\n**External MCPs Available (from your credentials.json):**\n"
      ++ String.intercalate "\n" (externalMcps.map (fun m =>
          "- **" ++ m.name ++ "**: " ++ mcpToolsDisplay m))
      ++ (match keywordResearchHints with
          | some h =>
            if h = "" then "" else "\n\n**Integration Hint:** " ++ h
          | none => "")

/-- Publish-target resolution: an explicit non-empty list not containing
`"all"` is used verbatim; otherwise the targets are the platforms whose
credential is available. -/
def resolveTargets (publishTo : List String) (hasGhost hasWordPress : Bool) :
    List String :=
  if publishTo.length = 0 ∨ publishTo.contains "all" then
    (if hasGhost then ["ghost"] else [])
      ++ (if hasWordPress then ["wordpress"] else [])
  else publishTo

/-- Lines 2..(contentImageCount+1) of the required-images list of the
`generate_images` step. -/
def sectionImageLines (contentImageCount : Nat) : String :=
  String.intercalate "\n" ((List.range contentImageCount).map (fun i =>
    toString (i + 2) ++ ". **Section Image " ++ toString (i + 1)
      ++ "** - For content section " ++ toString (i + 1)
      ++ " (16:9 aspect ratio)"))

/-- Instruction text of the `keyword_research` step of `buildWorkflowPlan`. -/
def keywordresearchInstr (request : String) (siteName siteUrl niche siteDescription : Option String) (keywordsDisplay : String) (geoFocus : Option String) (mcpInstructions : String) : String :=
  "Research keywords for: \"" ++
    request ++
    "\"\n\n**Project Context (from database):**\n- Site: " ++
    jsStr siteName ++
    " (" ++
    jsStr siteUrl ++
    ")\n- Niche: " ++
    jsStr niche ++
    "\n- Description: " ++
    jsOrStr siteDescription "Not set" ++
    "\n- Primary keywords: " ++
    keywordsDisplay ++
    "\n- Geographic focus: " ++
    jsOrStr geoFocus "Global" ++
    "\n" ++
    mcpInstructions ++
    "\n\n**Deliverables:**\n- 1 primary keyword to target (lower difficulty preferred)\n- 3-5 secondary/LSI keywords\n- 2-3 question-based keywords for FAQ section"

/-- Instruction text of the `seo_strategy` step of `buildWorkflowPlan`. -/
def seostrategyInstr (request : String) (siteName niche targetAudience brandVoice geoFocus : Option String) : String :=
  "Create SEO strategy and content brief for: \"" ++
    request ++
    "\"\n\n**Using Keywords from Step 1:**\n- Use the primary keyword you identified\n- Incorporate secondary/LSI keywords naturally\n\n**Project Context:**\n- Site: " ++
    jsStr siteName ++
    "\n- Niche: " ++
    jsStr niche ++
    "\n- Target audience: " ++
    jsOrStr targetAudience "Not specified" ++
    "\n- Brand voice: " ++
    jsStr brandVoice ++
    "\n- Geographic focus: " ++
    jsOrStr geoFocus "Global" ++
    "\n\n**Deliverables:**\n1. **Search Intent Analysis** - What is the user trying to accomplish?\n2. **Competitor Gap Analysis** - What are top 3 ranking pages missing?\n3. **Content Brief:**\n   - Recommended content type (guide/listicle/how-to/comparison)\n   - Unique angle to differentiate from competitors\n   - Key points to cover that competitors miss\n4. **On-Page SEO Checklist:**\n   - Title tag format\n   - Meta description template\n   - Header structure (H1, H2, H3)\n   - Internal linking opportunities"

/-- Instruction text of the `topical_map` step of `buildWorkflowPlan`. -/
def topicalmapInstr (request : String) (siteName niche : Option String) (keywordsDisplay : String) : String :=
  "Design content architecture for: \"" ++
    request ++
    "\"\n\n**Build a Pillar-Cluster Structure:**\n- Main pillar topic (this article)\n- Supporting cluster articles (future content opportunities)\n\n**Project Context:**\n- Site: " ++
    jsStr siteName ++
    "\n- Niche: " ++
    jsStr niche ++
    "\n- Primary keywords: " ++
    keywordsDisplay ++
    "\n\n**Deliverables:**\n1. **Pillar Page Concept** - What should this main article establish?\n2. **Cluster Topics** - 5-7 related subtopics for future articles\n3. **Internal Linking Plan** - How these articles connect\n4. **Content Gaps** - What topics are missing in this niche?\n\nNote: Focus on the CURRENT article structure, but identify opportunities for a content cluster."

/-- Instruction text of the `content_calendar` step of `buildWorkflowPlan`. -/
def contentcalendarInstr (count : Nat) (request : String) (siteName niche : Option String) : String :=
  "Plan content calendar for " ++
    toString count ++
    " articles about: \"" ++
    request ++
    "\"\n\n**Project Context:**\n- Site: " ++
    jsStr siteName ++
    "\n- Niche: " ++
    jsStr niche ++
    "\n- Articles to create: " ++
    toString count ++
    "\n\n**Deliverables:**\n1. **Article Sequence** - Order to create articles (foundational → specific)\n2. **Topic List** - " ++
    toString count ++
    " specific titles/topics\n3. **Keyword Assignment** - Primary keyword for each article\n4. **Publishing Cadence** - Recommended frequency\n\nNote: This guides the creation of all " ++
    toString count ++
    " articles in this session."

/-- Instruction text of the `content_planning` step of `buildWorkflowPlan`. -/
def contentplanningInstr (siteName targetAudience brandVoice : Option String) (differentiators : List String) (targetWordCount : Nat) (readingLevelDisplay : String) (shouldGenerateImages : Bool) (contentImageCount : Nat) : String :=
  "Create a detailed content outline with SEO meta:\n\n**Project Requirements (from database):**\n- Site: " ++
    jsStr siteName ++
    "\n- Target audience: " ++
    jsOrStr targetAudience "Not specified" ++
    "\n- Brand voice: " ++
    jsStr brandVoice ++
    "\n- Brand differentiators: " ++
    (if differentiators.isEmpty then "Not set" else String.intercalate ", " differentiators) ++
    "\n- Word count: **" ++
    toString targetWordCount ++
    " words MINIMUM** (this is required!)\n- Reading level: **" ++
    readingLevelDisplay ++
    "** (use simple sentences, avoid jargon)\n\n**You MUST create:**\n\n1. **SEO Meta Title** (50-60 characters, include primary keyword)\n2. **SEO Meta Description** (150-160 characters, compelling, include keyword)\n3. **URL Slug** (lowercase, hyphens, keyword-rich)\n4. **Content Outline:**\n   - H1: Main title\n   - 6-8 H2 sections (to achieve " ++
    toString targetWordCount ++
    " words)\n   - H3 subsections where needed\n   - FAQ section with 4-5 questions\n\n" ++
    (if shouldGenerateImages then "**Image Placeholders:** Mark where " ++ toString contentImageCount ++ " inline images should go (1 every ~300 words)\nUse format: [IMAGE: description of what image should show]" else "**Note:** Images disabled for this project.")

/-- Instruction text of the `content_write` step of `buildWorkflowPlan`. -/
def contentwriteInstr (count articleIndex articleNum : Nat) (targetWordCount : Nat) (readingLevelDisplay : String) (brandVoice targetAudience : Option String) (shouldGenerateImages : Bool) : String :=
  (if 1 < count then "## 📝 " ++ ("ARTICLE " ++ toString articleNum ++ " OF " ++ toString count) ++ "\n\n" else "") ++
    "Write the COMPLETE article following your outline.\n" ++
    (if 1 < count ∧ articleIndex ≠ 0 then "\n**Progress:** " ++ toString articleIndex ++ " article(s) already saved. Now creating article " ++ toString articleNum ++ "." else "") ++
    "\n" ++
    (if 1 < count then "**Topic:** Use topic #" ++ toString articleNum ++ " from your content calendar.\n" else "") ++
    "\n**MANDATORY WORD COUNT: " ++
    toString targetWordCount ++
    " WORDS MINIMUM**\nThis is a strict requirement from the project settings.\nThe article will be REJECTED if under " ++
    toString targetWordCount ++
    " words.\n\n**Project Requirements (from Supabase database - DO NOT IGNORE):**\n- Word count: **" ++
    toString targetWordCount ++
    " words** (MINIMUM - not a suggestion!)\n- Reading level: **" ++
    readingLevelDisplay ++
    "** - Simple sentences, short paragraphs\n- Brand voice: " ++
    jsStr brandVoice ++
    "\n- Target audience: " ++
    jsOrStr targetAudience "General readers" ++
    "\n\n**To reach " ++
    toString targetWordCount ++
    " words, you MUST:**\n- Write 8-10 substantial H2 sections (each 200-400 words)\n- Include detailed examples, statistics, and actionable advice\n- Add comprehensive FAQ section (5-8 questions)\n- Expand each point with thorough explanations\n\n**Content Structure:**\n- Engaging hook in first 2 sentences\n- All H2/H3 sections from your outline (expand each thoroughly!)\n- Statistics, examples, and actionable tips in EVERY section\n" ++
    (if shouldGenerateImages then "- Image placeholders: [IMAGE: description] where images should go" else "") ++
    "\n- FAQ section with 5-8 Q&As (detailed answers, not one-liners)\n- Strong conclusion with clear CTA\n\n**MANDATORY: After writing " ++
    toString targetWordCount ++
    "+ words, call \x27save_content\x27 with:**\n- title: Your SEO-optimized title\n- content: The full article (markdown)\n- keywords: Array of target keywords\n- meta_description: Your 150-160 char meta description\n\nSTOP! Before calling save_content, verify you have " ++
    toString targetWordCount ++
    "+ words.\nCount the words. If under " ++
    toString targetWordCount ++
    ", ADD MORE CONTENT.\n" ++
    (if 1 < count ∧ articleIndex + 1 ≠ count then "\n⚠️ After saving this article, you MUST continue with article " ++ toString (articleNum + 1) ++ " of " ++ toString count ++ ". Do NOT publish until all " ++ toString count ++ " articles are saved." else "") ++
    "\n" ++
    (if 1 < count ∧ articleIndex + 1 = count then "\n✅ This is the LAST article (" ++ toString articleNum ++ " of " ++ toString count ++ "). After saving, all articles will be ready for publishing." else "")

/-- Instruction text of the `quality_check` step of `buildWorkflowPlan`. -/
def qualitycheckInstr (targetWordCount : Nat) (readingLevelDisplay : String) (brandVoice targetAudience siteName : Option String) : String :=
  "Perform quality check on the article you just saved.\n\n**Quality Checklist:**\n\n1. **SEO Check:**\n   - Primary keyword in H1, first 100 words, URL slug\n   - Secondary keywords distributed naturally\n   - Meta title 50-60 characters\n   - Meta description 150-160 characters\n   - Proper header hierarchy (H1 → H2 → H3)\n\n2. **Content Quality:**\n   - Word count meets requirement (" ++
    toString targetWordCount ++
    "+ words)\n   - Reading level appropriate (" ++
    readingLevelDisplay ++
    ")\n   - No grammar or spelling errors\n   - Factual accuracy (no made-up statistics)\n\n3. **Brand Consistency:**\n   - Voice matches: " ++
    jsStr brandVoice ++
    "\n   - Speaks to: " ++
    jsOrStr targetAudience "target audience" ++
    "\n   - Aligns with " ++
    jsStr siteName ++
    " brand\n\n4. **Engagement:**\n   - Strong hook in introduction\n   - Clear value proposition\n   - Actionable takeaways\n   - Compelling CTA in conclusion\n\n**Report any issues found and suggest fixes. If major issues exist, fix them before proceeding.**"

/-- Instruction text of the `geo_optimize` step of `buildWorkflowPlan`. -/
def geooptimizeInstr : String :=
  "Optimize article for AI search engines (ChatGPT, Perplexity, Google SGE, Claude).\n\n**GEO (Generative Engine Optimization) Checklist:**\n\n1. **Structured Answers:**\n   - Clear, direct answers to common questions\n   - Definition boxes for key terms\n   - TL;DR sections for complex topics\n\n2. **Citation-Worthy Content:**\n   - Original statistics or data points\n   - Expert quotes or authoritative sources\n   - Unique insights not found elsewhere\n\n3. **LLM-Friendly Structure:**\n   - Bulleted lists for easy extraction\n   - Tables for comparisons\n   - Step-by-step numbered processes\n\n4. **Semantic Clarity:**\n   - Clear topic sentences per paragraph\n   - Explicit cause-effect relationships\n   - Avoid ambiguous pronouns\n\n**Target AI Engines:**\n- ChatGPT (conversational answers)\n- Perplexity (citation-heavy)\n- Google SGE (structured snippets)\n- Claude (comprehensive analysis)\n\n**Review the saved article and suggest specific improvements to make it more likely to be cited by AI search engines.**"

/-- Instruction text of the `generate_images` step of `buildWorkflowPlan`. -/
def generateimagesInstr (totalImages contentImageCount : Nat) (visualStyle : Option String) (colorsDisplay : String) (siteName : Option String) : String :=
  "Generate " ++
    toString totalImages ++
    " images for the article:\n\n**Required Images:**\n1. **Cover/Hero Image** - Main article header (16:9 aspect ratio)\n" ++
    sectionImageLines contentImageCount ++
    "\n\n**For each image, call \x27generate_image\x27 tool with:**\n- prompt: Detailed description based on article content\n- style: " ++
    jsOrStr visualStyle "professional minimalist" ++
    "\n- aspect_ratio: 16:9\n\n**Visual Style (from project database):**\n- Image aesthetic: " ++
    jsOrStr visualStyle "Not specified" ++
    "\n- Brand colors: " ++
    colorsDisplay ++
    "\n- Keep consistent with " ++
    jsStr siteName ++
    " brand identity\n\n**Image Style Guide:**\n- Professional, clean aesthetic\n- Relevant to the section topic\n- No text in images\n- Consistent style across all images\n\nAfter generating, note the URLs - they will be saved automatically for publishing."

/-- Instruction text of the `publish` step of `buildWorkflowPlan`. -/
def publishInstr (targets : List String) : String :=
  "Publish the article to: " ++
    String.intercalate ", " targets ++
    "\n\nCall \x27publish_content\x27 tool - it will automatically use:\n- Saved article title and content\n- SEO meta description\n- Generated images (cover + inline)\n- Target keywords as tags"


/-- Step list pushed by `buildWorkflowPlan`, in push order, given the values
extracted from the validated configuration. -/
def planProtoSteps (request : String) (count : Nat) (targets : List String)
    (shouldGenerateImages : Bool) (contentImageCount totalImages : Nat)
    (targetWordCount : Nat) (readingLevelDisplay keywordsDisplay : String)
    (siteName siteUrl niche siteDescription brandVoice targetAudience : Option String)
    (differentiators brandColors : List String)
    (visualStyle geoFocus : Option String) (mcpInstructions : String) :
    List ProtoStep :=
  [⟨"llm_execute", "keyword_research",
      keywordresearchInstr request siteName siteUrl niche siteDescription
        keywordsDisplay geoFocus mcpInstructions, none, none, some "keywords"⟩,
    ⟨"llm_execute", "seo_strategy",
      seostrategyInstr request siteName niche targetAudience brandVoice
        geoFocus, none, none, some "seo_strategy"⟩,
    ⟨"llm_execute", "topical_map",
      topicalmapInstr request siteName niche keywordsDisplay, none, none,
      some "topical_map"⟩]
  ++ (if 1 < count then
      [⟨"llm_execute", "content_calendar",
        contentcalendarInstr count request siteName niche, none, none,
        some "content_calendar"⟩] else [])
  ++ [⟨"llm_execute", "content_planning",
      contentplanningInstr siteName targetAudience brandVoice differentiators
        targetWordCount readingLevelDisplay shouldGenerateImages
        contentImageCount, none, none, some "outline"⟩]
  ++ (List.range count).map (fun articleIndex =>
      ⟨"llm_execute", "content_write",
        contentwriteInstr count articleIndex (articleIndex + 1)
          targetWordCount readingLevelDisplay brandVoice targetAudience
          shouldGenerateImages, none, none,
        some ("article"
          ++ (if 1 < count then "_" ++ toString (articleIndex + 1) else ""))⟩)
  ++ [⟨"llm_execute", "quality_check",
      qualitycheckInstr targetWordCount readingLevelDisplay brandVoice
        targetAudience siteName, none, none, some "quality_report"⟩,
    ⟨"llm_execute", "geo_optimize", geooptimizeInstr, none, none,
      some "geo_report"⟩]
  ++ (if shouldGenerateImages then
      [⟨"llm_execute", "generate_images",
        generateimagesInstr totalImages contentImageCount visualStyle
          (colorsDisplayOf brandColors) siteName, some totalImages, none,
        some "images"⟩] else [])
  ++ (if targets.length > 0 then
      [⟨"action", "publish", publishInstr targets, none, some targets,
        none⟩] else [])

/-- Core of `buildWorkflowPlan` once validation has passed (`cfg` is the
validated `project.config`). -/
def buildPlanCore (env : PlannerEnv) (nowMs : Nat) (request : String)
    (count : Nat) (publishTo : List String) (withImages : Bool)
    (cfg : ProjectConfig) : WorkflowPlan :=
  let targetWordCount := cfg.content.default_word_count.getD 0
  let readingLevel := cfg.content.reading_level
  let includeImages := cfg.content.include_images
  let brandVoice := cfg.brand.voice
  let targetAudience := cfg.brand.target_audience
  let differentiators := cfg.brand.differentiators.getD []
  let visualStyle := cfg.visual_style.image_aesthetic
  let brandColors := cfg.visual_style.colors.getD []
  let primaryKeywords := cfg.seo.primary_keywords.getD []
  let geoFocus := cfg.seo.geo_focus
  let niche := cfg.site.niche
  let siteName := cfg.site.name
  let siteUrl := cfg.site.url
  let siteDescription := cfg.site.description
  let shouldGenerateImages :=
    withImages && jsTruthyBool includeImages && env.hasImageGen
  let contentImageCount :=
    if shouldGenerateImages then targetWordCount / 300 else 0
  let totalImages := if shouldGenerateImages then 1 + contentImageCount else 0
  let readingLevelDisplay := readingLevelDisplayOf readingLevel
  let keywordsDisplay := keywordsDisplayOf primaryKeywords
  let targets := resolveTargets publishTo env.hasGhost env.hasWordPress
  let mcpInstructions :=
    mcpInstructionsOf env.externalMcps env.keywordResearchHints
  let steps := numberSteps (planProtoSteps request count targets
    shouldGenerateImages contentImageCount totalImages targetWordCount
    readingLevelDisplay keywordsDisplay siteName siteUrl niche
    siteDescription brandVoice targetAudience differentiators brandColors
    visualStyle geoFocus mcpInstructions)
  { workflow_id := "wf_" ++ toString nowMs
    request := request
    total_articles := count
    current_article := 1
    total_steps := steps.length
    current_step := 1
    project_info := ⟨siteName, siteUrl, niche⟩
    settings :=
      { article_count := count
        target_word_count := targetWordCount
        reading_level := readingLevel
        reading_level_display := readingLevelDisplay
        brand_voice := brandVoice
        target_audience := targetAudience
        include_images := includeImages
        total_images := totalImages
        content_images := contentImageCount
        visual_style := visualStyle
        primary_keywords := primaryKeywords
        geo_focus := geoFocus }
    available_integrations :=
      ⟨env.externalMcps.map (fun m => m.name), env.hasGhost,
        env.hasWordPress, env.hasImageGen⟩
    steps := steps }

/-- `buildWorkflowPlan(request, count, publishTo, withImages, project)`:
validates `project?.config` (throwing the itemized configuration error) and
builds the plan.  After successful validation the config is necessarily
present, so the `getD` default below is never the value used. -/
def buildWorkflowPlan (env : PlannerEnv) (nowMs : Nat) (request : String)
    (count : Nat) (publishTo : List String) (withImages : Bool)
    (project : Option Project) : Except String WorkflowPlan :=
  match validateProjectConfig (project.bind (fun p => p.config)) with
  | .error e => .error e
  | .ok _warnings =>
    .ok (buildPlanCore env nowMs request count publishTo withImages
      ((project.bind (fun p => p.config)).getD {}))

/-! ## Resilient HTTP client (`src/mcp-client/services/api.js`)

A single network attempt either yields a response (with a status code and an
optional parsed `Retry-After` header, in seconds) or rejects with a JS error
carrying a `name` and a `message`.  The network is an oracle mapping the
attempt number (1-based, as in the source loop) to its outcome.  Real time is
abstracted: `fetchWithTimeout` is driven by a boolean saying whether the
underlying request finished within `timeoutMs`; if it did not, the
`AbortController` fires and the promise rejects with an `AbortError`. -/

inductive AttemptOutcome where
  | resp (status : Nat) (retryAfter : Option Nat)
  | err (name msg : String)
deriving DecidableEq, Repr

/-- `fetchWithTimeout(url, options, timeoutMs)`: issues the request and aborts
it via an `AbortController` when it exceeds `timeoutMs`; an aborted fetch
rejects with an error whose `name` is `"AbortError"`. -/
def fetchWithTimeout (withinTimeout : Bool) (underlying : AttemptOutcome) :
    AttemptOutcome :=
  if withinTimeout then underlying
  else .err "AbortError" "This operation was aborted"

/-- `response.status >= 500 || response.status === 429` -/
def isRetryableStatus (status : Nat) : Bool :=
  status ≥ 500 || status == 429

/-- Outcome of `fetchWithRetry`: either a response is returned, or an error is
thrown.  The source converts an `AbortError` into a fresh
`Error('Request timeout after ${timeoutMs}ms: ${url}')`, modelled by the
dedicated `threwTimeout` constructor; otherwise the last caught error is
rethrown (`threwLast`); with `maxRetries = 0` the loop body never runs and
`new Error('Request failed after ${maxRetries} attempts: ${url}')` is thrown
(`threwNoAttempts`). -/
inductive RetryResult where
  | returned (status : Nat) (retryAfter : Option Nat)
  | threwTimeout (timeoutMs : Nat) (url : String)
  | threwLast (name msg : String)
  | threwNoAttempts (maxRetries : Nat) (url : String)
deriving DecidableEq, Repr

/-- Trace of one `fetchWithRetry` call: the attempt outcomes processed in
order, the delays (in ms) slept between attempts, and the final result. -/
structure RetryTrace where
  attempts : List AttemptOutcome
  delays : List Nat
  result : RetryResult
deriving DecidableEq, Repr

/-- The delay computed before retrying attempt `attempt`:
`retryAfter ? parseInt(retryAfter) * 1000 : Math.pow(2, attempt) * 1000` for
retryable statuses, `Math.pow(2, attempt) * 1000` for caught network
errors. -/
def statusRetryDelay (retryAfter : Option Nat) (attempt : Nat) : Nat :=
  match retryAfter with
  | some seconds => seconds * 1000
  | none => 2 ^ attempt * 1000

/-- Body of the `for (let attempt = 1; attempt <= maxRetries; attempt++)`
loop of `fetchWithRetry`, for `1 ≤ attempt ≤ maxRetries`. -/
def fetchRetryGo (oracle : Nat → AttemptOutcome) (maxRetries timeoutMs : Nat)
    (url : String) (attempt : Nat) (lastError : Option (String × String)) :
    RetryTrace :=
  match oracle attempt with
  | .resp status retryAfter =>
    if isRetryableStatus status then
      if h : attempt < maxRetries then
        let t := fetchRetryGo oracle maxRetries timeoutMs url (attempt + 1)
          lastError
        ⟨.resp status retryAfter :: t.attempts,
          statusRetryDelay retryAfter attempt :: t.delays, t.result⟩
      else ⟨[.resp status retryAfter], [], .returned status retryAfter⟩
    else ⟨[.resp status retryAfter], [], .returned status retryAfter⟩
  | .err name msg =>
    if name = "AbortError" then
      ⟨[.err name msg], [], .threwTimeout timeoutMs url⟩
    else
      if h : attempt < maxRetries then
        let t := fetchRetryGo oracle maxRetries timeoutMs url (attempt + 1)
          (some (name, msg))
        ⟨.err name msg :: t.attempts, 2 ^ attempt * 1000 :: t.delays, t.result⟩
      else ⟨[.err name msg], [], .threwLast name msg⟩
termination_by maxRetries - attempt
decreasing_by
  · omega
  · omega

/-- `fetchWithRetry(url, options, maxRetries, timeoutMs)` over an attempt
oracle.  When `maxRetries = 0` the loop never runs and the fallback error is
thrown. -/
def fetchWithRetry (oracle : Nat → AttemptOutcome) (maxRetries timeoutMs : Nat)
    (url : String) : RetryTrace :=
  if maxRetries = 0 then ⟨[], [], .threwNoAttempts maxRetries url⟩
  else fetchRetryGo oracle maxRetries timeoutMs url 1 none

/-- An outcome leads to a retry (budget permitting) iff it is a retryable
status, or a caught error that is not the abort produced by a timeout. -/
def shouldRetryOutcome : AttemptOutcome → Bool
  | .resp status _ => isRetryableStatus status
  | .err name _ => name != "AbortError"

/-- The delay slept after a given retried outcome. -/
def retryDelayFor : AttemptOutcome → Nat → Nat
  | .resp _ retryAfter, attempt => statusRetryDelay retryAfter attempt
  | .err _ _, attempt => 2 ^ attempt * 1000


/-- A 500 response on the first attempt, then a 200 response. -/
def ex500then200 : Nat → AttemptOutcome :=
  fun attempt => if attempt = 1 then .resp 500 none else .resp 200 none

/-- Full behavioural specification of one `fetchWithRetry` call (attempt
numbers are 1-based, matching the source loop):
attempt outcomes are consumed from the oracle in order; attempt `j+2` is made
iff attempt `j+1` was made, was retryable (status ≥ 500 or 429, or a
non-abort error) and budget remained; each retry sleeps the prescribed
delay (`Retry-After` seconds × 1000 if present, else `2^attempt` seconds);
if processing stops at a response it is returned, and if it stops at a
non-timeout error with the budget exhausted, that error is thrown. -/
def RetryTraceSpec (oracle : Nat → AttemptOutcome) (mR tO : Nat)
    (url : String) : Prop :=
  (∀ j, j < (fetchWithRetry oracle mR tO url).attempts.length →
    (fetchWithRetry oracle mR tO url).attempts[j]? = some (oracle (1 + j)))
  ∧ (∀ j, (j + 1 < (fetchWithRetry oracle mR tO url).attempts.length ↔
      (j < (fetchWithRetry oracle mR tO url).attempts.length ∧
      shouldRetryOutcome (oracle (1 + j)) = true ∧ 1 + j < mR)))
  ∧ (fetchWithRetry oracle mR tO url).delays.length + 1 =
      (fetchWithRetry oracle mR tO url).attempts.length
  ∧ (∀ j, j < (fetchWithRetry oracle mR tO url).delays.length →
      (fetchWithRetry oracle mR tO url).delays[j]? =
        some (retryDelayFor (oracle (1 + j)) (1 + j)))
  ∧ (∀ j st ra, (fetchWithRetry oracle mR tO url).attempts.length = j + 1 →
      oracle (1 + j) = .resp st ra →
      (fetchWithRetry oracle mR tO url).result = .returned st ra)
  ∧ (∀ j nm msg, (fetchWithRetry oracle mR tO url).attempts.length = j + 1 →
      oracle (1 + j) = .err nm msg → nm ≠ "AbortError" →
      (fetchWithRetry oracle mR tO url).result = .threwLast nm msg)

/-- A timed-out attempt aborts `fetchWithRetry` on the spot: no further
attempts, no further delays, and the distinct timeout error is thrown. -/
def timeoutOracle (within : Nat → Bool)
    (underlying : Nat → AttemptOutcome) : Nat → AttemptOutcome :=
  fun j => fetchWithTimeout (within j) (underlying j)

def TimeoutRaiseSpec (within : Nat → Bool) (underlying : Nat → AttemptOutcome)
    (mR tO : Nat) (url : String) : Prop :=
  ∀ j, j < (fetchWithRetry (timeoutOracle within underlying) mR tO url).attempts.length →
    within (1 + j) = false →
    (fetchWithRetry (timeoutOracle within underlying) mR tO url).attempts.length = j + 1 ∧
      (fetchWithRetry (timeoutOracle within underlying) mR tO url).result =
        .threwTimeout tO url ∧
      (fetchWithRetry (timeoutOracle within underlying) mR tO url).delays.length = j


/-! ## Session state service (`src/mcp-client/services/session-state.js`) -/

/-- The `sessionState` object.  `metadata` is `{ meta_description }` in the
source and is modelled by the description string it carries. -/
structure SessionState where
  currentWorkflow : Option WorkflowPlan := none
  stepResults : List (String × String) := []
  articles : List Article := []
  article : Option String := none
  title : Option String := none
  imageUrl : Option String := none
  inlineImages : List String := []
  keywords : Option (List String) := none
  metadata : Option String := none
  metaTitle : Option String := none
  metaDescription : Option String := none
  contentFolder : Option String := none
deriving DecidableEq, Repr

/-- The initial value of the `sessionState` literal (also the value
`resetSession` assigns). -/
def initialSessionState : SessionState := {}

/-- `SESSION_EXPIRY_MS` from `src/mcp-client/config.js` (24 hours). -/
def SESSION_EXPIRY_MS : Nat := 24 * 60 * 60 * 1000

/-- `isSessionExpired(savedAt)`: a missing `savedAt` is expired; otherwise
expired iff `now - savedTime > SESSION_EXPIRY_MS` (a `savedAt` in the future
gives a negative difference in JS, not expired; `Nat` truncation at 0 agrees). -/
def isSessionExpired (savedAt : Option Nat) (nowMs : Nat) : Bool :=
  match savedAt with
  | none => true
  | some savedTime => SESSION_EXPIRY_MS < nowMs - savedTime

/-- The JSON document `saveSession` writes: every session field plus
`savedAt` (an optional field when read back from disk). -/
structure PersistedSession where
  data : SessionState
  savedAt : Option Nat
deriving DecidableEq, Repr

/-- `saveSession()` on its success path: serialize the full session plus
`savedAt: now` over the session file (write failures are logged and leave
the previous file; the claims below concern the success path). -/
def saveSessionFS (s : SessionState) (nowMs : Nat) : Option PersistedSession :=
  some ⟨s, some nowMs⟩

/-- `restoreSession()`: `none` covers a missing file and a parse failure
(both return `false` without touching the state); an expired session is
rejected wholesale; otherwise every field is restored (`|| default` on each
field is the identity in this typed model). -/
def restoreSession (file : Option PersistedSession) (nowMs : Nat)
    (s : SessionState) : Bool × SessionState :=
  match file with
  | none => (false, s)
  | some saved =>
    if isSessionExpired saved.savedAt nowMs then (false, s)
    else
      (true,
        { currentWorkflow := saved.data.currentWorkflow
          stepResults := saved.data.stepResults
          articles := saved.data.articles
          article := saved.data.article
          title := saved.data.title
          imageUrl := saved.data.imageUrl
          inlineImages := saved.data.inlineImages
          keywords := saved.data.keywords
          metadata := saved.data.metadata
          metaTitle := saved.data.metaTitle
          metaDescription := saved.data.metaDescription
          contentFolder := saved.data.contentFolder })

/-- `resetSession()`: sets every field back to its initial value.  It does
not touch the session file. -/
def resetSession (_s : SessionState) : SessionState := initialSessionState

/-- `clearSessionFile()`: deletes the persisted file (a missing file is a
no-op). -/
def clearSessionFile (_fs : Option PersistedSession) :
    Option PersistedSession := none

/-! ## Content utilities (`src/mcp-client/utils/content.js`) -/

/-- Split a character list at the first `]`, returning the run before it and
the remainder after it. -/
def splitAtRBracket : List Char → Option (List Char × List Char)
  | [] => none
  | c :: rest =>
    if c = ']' then some ([], rest)
    else match splitAtRBracket rest with
      | some (run, rem) => some (c :: run, rem)
      | none => none

/-- Whether `cs` starts with `IMAGE:` case-insensitively. -/
def startsWithImageTag (cs : List Char) : Bool :=
  (cs.take 6).map Char.toLower == "image:".toList

/-- Scanner for `content.replace(/\[IMAGE:\s*([^\]]+)\]/gi, ...)`: at each
position, a match needs `[`, a case-insensitive `IMAGE:`, and at least one
character before the next `]`; the replacement is the markdown image for the
next unused URL, and a placeholder beyond the URL list is kept verbatim
(scanning continues after the match either way).  Because the callback trims
the capture, absorbing the `\s*` into the capture does not change the
output.  `fuel` strictly exceeds the number of scanning positions and never
runs out. -/
def injectImagesAux : Nat → List Char → List String → List Char
  | 0, cs, _ => cs
  | _ + 1, [], _ => []
  | fuel + 1, c :: rest, urls =>
    if c = '[' ∧ startsWithImageTag rest then
      match splitAtRBracket (rest.drop 6) with
      | some (run, rem) =>
        if run.isEmpty then c :: injectImagesAux fuel rest urls
        else
          match urls with
          | [] =>
            (c :: rest.take (6 + run.length + 1)) ++ injectImagesAux fuel rem []
          | u :: us =>
            ("![".data ++ (String.mk run).trim.data ++ "](".data ++ u.data
              ++ ")".data) ++ injectImagesAux fuel rem us
      | none => c :: injectImagesAux fuel rest urls
    else c :: injectImagesAux fuel rest urls

/-- `injectImagesIntoContent(content, imageUrls)`. -/
def injectImagesIntoContent (content : String) (imageUrls : List String) :
    String :=
  String.mk (injectImagesAux (content.data.length + 1) content.data imageUrls)

/-! ## Publishers (external capabilities behind
`executeGhostPublish` / `executeWordPressPublish`) -/

/-- Argument object of `executeGhostPublish`. -/
structure GhostPayload where
  title : String
  content : String
  status : String
  tags : List String
  featured_image_url : Option String
deriving DecidableEq, Repr

/-- Argument object of `executeWordPressPublish`. -/
structure WPPayload where
  title : String
  content : String
  status : String
  categories : List String
  tags : List String
  featured_image_url : Option String
deriving DecidableEq, Repr

/-- A publisher call either resolves (its MCP result, modelled by its text)
or throws (the caught `e.message`). -/
inductive PubOutcome where
  | success (resultText : String)
  | failure (errMsg : String)
deriving DecidableEq, Repr

def PubOutcome.isSuccess : PubOutcome → Bool
  | .success _ => true
  | .failure _ => false

/-- One `{ platform, success, result|error }` entry. -/
structure PlatformResult where
  platform : String
  outcome : PubOutcome
deriving DecidableEq, Repr

/-- One per-article entry of `allResults`. -/
structure ArticleResults where
  article : String
  articleId : String
  wordCount : Nat
  platforms : List PlatformResult
deriving DecidableEq, Repr

/-- What `handlePublishContent` answers: the two informative no-op responses
or the batch report. -/
inductive PublishResponse where
  | noopInvalidNumbers (nums : List Int)
  | noopNoArticles
  | report (results : List ArticleResults)
deriving DecidableEq, Repr

/-! ## Orchestrator handlers (`src/mcp-client/handlers/orchestrator.js`) -/

/-- `article.wordCount || contentWithImages.split(/\s+/).length`: the
word count is recomputed when the field is absent (the synthesized
`'current'` pseudo-article, modelled with `wordCount = 0`; a saved article
always has a positive count since a JS split is never empty). -/
def jsWordCount (a : Article) (contentWithImages : String) : Nat :=
  if a.wordCount = 0 then jsSplitWsLen contentWithImages else a.wordCount

/-- `sessionState.articles[num - 1]` for a 1-based JS index expression. -/
def jsIndex (articles : List Article) (idx : Int) : Option Article :=
  if idx < 0 then none else articles[idx.toNat]?

/-- Explicit `article_numbers` selection: resolve 1-based indices (invalid
ones yield `undefined` and are dropped by the `filter`), then drop the
already published. -/
def selectByNumbers (articles : List Article) (nums : List Int) :
    List Article :=
  (nums.filterMap (fun num => jsIndex articles (num - 1))).filter
    (fun a => !a.published)

/-- `str.toLowerCase()` (ASCII platform names in this code base). -/
def jsToLowerCase (str : String) : String :=
  String.mk (str.data.map Char.toLower)

/-- The `findIndex`-then-mutate block marking one article published:
`published := true`, `publishedTo` := lowercased succeeding platforms,
`publishedAt := now`. -/
def markPublishedById (articles : List Article) (aid : String)
    (pubTo : List String) (nowMs : Nat) : List Article :=
  match articles.findIdx? (fun a => a.id == aid) with
  | none => articles
  | some i =>
    match articles[i]? with
    | none => articles
    | some a =>
      articles.set i
        { a with
          published := true
          publishedTo := pubTo
          publishedAt := some nowMs }

/-- Per-article publishing: inject inline images, then attempt each enabled
platform independently, a throw becoming a `failure` entry. -/
def publishArticleResults (ghostPub : GhostPayload → PubOutcome)
    (wpPub : WPPayload → PubOutcome) (sg sw : Bool) (status category : String)
    (a : Article) : ArticleResults :=
  let contentWithImages := injectImagesIntoContent a.content a.inlineImages
  ⟨a.title, a.id, jsWordCount a contentWithImages,
    (if sg then
      [⟨"Ghost", ghostPub ⟨a.title, contentWithImages, status, a.keywords,
        a.imageUrl⟩⟩] else [])
    ++ (if sw then
      [⟨"WordPress", wpPub ⟨a.title, contentWithImages, status,
        (if category = "" then [] else [category]), a.keywords,
        a.imageUrl⟩⟩] else [])⟩

/-- The sequential `for` loop over `articlesToPublish`: each article is
processed in order; at least one success (and not the `'current'` pseudo
article) marks it published in the session articles. -/
def publishLoop (ghostPub : GhostPayload → PubOutcome)
    (wpPub : WPPayload → PubOutcome) (sg sw : Bool) (status category : String)
    (nowMs : Nat) : List Article → List Article →
      List Article × List ArticleResults
  | [], articles => (articles, [])
  | a :: rest, articles =>
    let ar := publishArticleResults ghostPub wpPub sg sw status category a
    let hasSuccess := ar.platforms.any (fun p => p.outcome.isSuccess)
    let articles' :=
      if hasSuccess ∧ a.id ≠ "current" then
        markPublishedById articles a.id
          ((ar.platforms.filter (fun p => p.outcome.isSuccess)).map
            (fun p => jsToLowerCase p.platform)) nowMs
      else articles
    let next := publishLoop ghostPub wpPub sg sw status category nowMs rest
      articles'
    (next.1, ar :: next.2)

/-- The synthesized single pseudo-article of the legacy draft path
(`id: 'current'`; the fields the literal omits are JS `undefined`:
`wordCount` 0, `published` falsy). -/
def currentPseudoArticle (s : SessionState) : Article :=
  { id := "current", title := s.title.getD "", content := s.article.getD ""
    keywords := s.keywords.getD [], metaDescription := s.metaDescription.getD ""
    metaTitle := "", imageUrl := s.imageUrl, inlineImages := s.inlineImages
    savedAt := 0, published := false, publishedTo := [], publishedAt := none
    wordCount := 0 }

/-- `handlePublishContent(args)` with the publishers, credentials and clock
passed as oracles.  Returns the new state, the new session file and the
response. -/
def handlePublishContent (ghostPub : GhostPayload → PubOutcome)
    (wpPub : WPPayload → PubOutcome) (hasGhost hasWP : Bool)
    (platforms : List String) (status category : String)
    (articleNumbers : List Int) (nowMs : Nat) (s : SessionState)
    (fs : Option PersistedSession) :
    SessionState × Option PersistedSession × PublishResponse :=
  let sg := hasGhost && (platforms.contains "all" || platforms.contains "ghost")
  let sw := hasWP &&
    (platforms.contains "all" || platforms.contains "wordpress")
  if articleNumbers.length > 0 then
    let sel := selectByNumbers s.articles articleNumbers
    if sel.isEmpty then (s, fs, .noopInvalidNumbers articleNumbers)
    else
      let out := publishLoop ghostPub wpPub sg sw status category nowMs sel
        s.articles
      let s1 := { s with articles := out.1 }
      (s1, saveSessionFS s1 nowMs, .report out.2)
  else
    let sel0 := s.articles.filter (fun a => !a.published)
    let sel :=
      if sel0.isEmpty ∧ jsTruthyStr s.article ∧ jsTruthyStr s.title then
        [currentPseudoArticle s]
      else sel0
    if sel.isEmpty then (s, fs, .noopNoArticles)
    else
      let out := publishLoop ghostPub wpPub sg sw status category nowMs sel
        s.articles
      let s1 := { s with articles := out.1 }
      (s1, saveSessionFS s1 nowMs, .report out.2)

/-- One `removed` entry of `handleRemoveArticle`. -/
structure RemovedEntry where
  num : Int
  title : String
deriving DecidableEq, Repr

/-- One `skipped` entry of `handleRemoveArticle`. -/
structure SkippedEntry where
  num : Int
  reason : String
  title : Option String := none
deriving DecidableEq, Repr

/-- Descending insertion of one number. -/
def insertDesc (x : Int) : List Int → List Int
  | [] => [x]
  | y :: ys => if x ≥ y then x :: y :: ys else y :: insertDesc x ys

/-- `[...article_numbers].sort((a, b) => b - a)`: numeric descending sort. -/
def sortDesc : List Int → List Int
  | [] => []
  | x :: xs => insertDesc x (sortDesc xs)

/-- The `for (const num of sortedNumbers)` loop of `handleRemoveArticle`:
out-of-range indices are reported `'not found'`, published articles are
reported `'already published'`, the rest are spliced out. -/
def removeLoop : List Int → List Article → List RemovedEntry →
    List SkippedEntry → List Article × List RemovedEntry × List SkippedEntry
  | [], arts, removed, skipped => (arts, removed, skipped)
  | num :: rest, arts, removed, skipped =>
    if num - 1 < 0 then
      removeLoop rest arts removed (skipped ++ [⟨num, "not found", none⟩])
    else
      match arts[(num - 1).toNat]? with
      | none =>
        removeLoop rest arts removed (skipped ++ [⟨num, "not found", none⟩])
      | some a =>
        if a.published then
          removeLoop rest arts removed
            (skipped ++ [⟨num, "already published", some a.title⟩])
        else
          removeLoop rest (arts.eraseIdx (num - 1).toNat)
            (removed ++ [⟨num, a.title⟩]) skipped

/-- `handleRemoveArticle(args)`: `none` is the early informative response
when no numbers are given (nothing is saved); otherwise the structured
`{removed, skipped}` result, with the session file rewritten. -/
def handleRemoveArticle (articleNumbers : List Int) (nowMs : Nat)
    (s : SessionState) (fs : Option PersistedSession) :
    SessionState × Option PersistedSession ×
      Option (List RemovedEntry × List SkippedEntry) :=
  if articleNumbers.isEmpty then (s, fs, none)
  else
    let out := removeLoop (sortDesc articleNumbers) s.articles [] []
    let s1 := { s with articles := out.1 }
    (s1, saveSessionFS s1 nowMs, some (out.2.1, out.2.2))

/-- `handleSaveContent(args)`: builds the new `Article` (the fresh id and the
clock are oracles), appends it, refreshes the backward-compatibility draft
fields, persists the session, writes the content folder (`folderResult` is
the returned folder path, `none` on failure), then clears the working
images for the next article. -/
def handleSaveContent (title content : String) (keywords : List String)
    (metaDescription : String) (freshId : String)
    (folderResult : Option String) (nowMs : Nat) (s : SessionState)
    (_fs : Option PersistedSession) :
    SessionState × Option PersistedSession :=
  let wordCount := jsSplitWsLen content
  let newArticle : Article :=
    { id := freshId, title := title, content := content, keywords := keywords
      metaDescription := metaDescription, metaTitle := title
      imageUrl := s.imageUrl, inlineImages := s.inlineImages
      savedAt := nowMs, published := false, publishedTo := []
      publishedAt := none, wordCount := wordCount }
  let s1 := { s with
    articles := s.articles ++ [newArticle]
    title := some title
    article := some content
    keywords := some keywords
    metaDescription := some metaDescription
    metadata := some metaDescription }
  let fs1 := saveSessionFS s1 nowMs
  let s2 := { s1 with
    contentFolder := match folderResult with
      | some p => some p
      | none => s1.contentFolder }
  let s3 := { s2 with imageUrl := none, inlineImages := [] }
  (s3, fs1)

/-- The data `handleLoadContent` reads from a content folder: `article.md`
plus the parsed `metadata.json` fields (a missing or unparsable metadata
file leaves them all absent). -/
structure FolderData where
  articleContent : String
  title : Option String := none
  keywords : Option (List String) := none
  metaDescription : Option String := none
  metaTitle : Option String := none
  imageUrl : Option String := none
  inlineImages : Option (List String) := none
  createdAt : Option Nat := none
deriving DecidableEq, Repr

/-- `metadata.imageUrl || null`. -/
def jsOrNone (o : Option String) : Option String :=
  match o with
  | some s => if s = "" then none else some s
  | none => none

/-- `handleLoadContent(args)` with the folder lookup as an oracle (`none`
covers a falsy folder name handled by the early return, a path-sanitization
throw, a missing folder and a missing `article.md`).  Loads the draft
fields and appends a fresh unpublished article unless one with the same
title is already in the session. -/
def handleLoadContent (folderName : String) (folder : Option FolderData)
    (freshId : String) (nowMs : Nat) (s : SessionState)
    (fs : Option PersistedSession) :
    SessionState × Option PersistedSession × Bool :=
  if folderName = "" then (s, fs, false)
  else
    match folder with
    | none => (s, fs, false)
    | some fd =>
      let titleStr := jsOrStr fd.title folderName
      let s1 := { s with
        title := some titleStr
        article := some fd.articleContent
        keywords := some (fd.keywords.getD [])
        metaDescription := some (fd.metaDescription.getD "")
        metaTitle := some (jsOrStr fd.metaTitle (jsOrStr fd.title folderName))
        imageUrl := jsOrNone fd.imageUrl
        inlineImages := fd.inlineImages.getD []
        contentFolder := some folderName }
      let loadedArticle : Article :=
        { id := freshId, title := titleStr, content := fd.articleContent
          keywords := fd.keywords.getD []
          metaDescription := fd.metaDescription.getD ""
          metaTitle := jsOrStr fd.metaTitle (jsOrStr fd.title folderName)
          imageUrl := jsOrNone fd.imageUrl
          inlineImages := fd.inlineImages.getD []
          savedAt := fd.createdAt.getD nowMs, published := false
          publishedTo := [], publishedAt := none
          wordCount := jsSplitWsLen fd.articleContent
          loadedFrom := some folderName }
      let s2 :=
        if s1.articles.any (fun a => a.title == titleStr) then s1
        else { s1 with articles := s1.articles ++ [loadedArticle] }
      (s2, saveSessionFS s2 nowMs, true)

/-- `handleClearSession(args)`: without confirmation, an informative
response and no change; with confirmation, `resetSession()` — note that the
persisted session file is not touched (`clearSessionFile` has no caller
here). -/
def handleClearSession (confirm : Bool) (s : SessionState)
    (fs : Option PersistedSession) :
    SessionState × Option PersistedSession × Bool :=
  if confirm then (resetSession s, fs, true)
  else (s, fs, false)

/-- `handleCreateContent(args, project)`: resets the session state, builds
the plan (configuration errors propagate), records it and persists the
session (overwriting the file). -/
def handleCreateContent (env : PlannerEnv) (request : String) (count : Nat)
    (publishTo : List String) (withImages : Bool) (project : Option Project)
    (nowMs : Nat) (s : SessionState) (_fs : Option PersistedSession) :
    Except String (SessionState × Option PersistedSession × WorkflowPlan) :=
  let s0 := resetSession s
  let request1 := jsOrStr (some request)
    ("content about " ++ jsOrStr (project.bind (fun p => p.niche))
      "the project topic")
  match buildWorkflowPlan env nowMs request1 count publishTo withImages
    project with
  | .error e => .error e
  | .ok plan =>
    let s1 := { s0 with currentWorkflow := some plan }
    .ok (s1, saveSessionFS s1 nowMs, plan)


/-! ## Sample fixtures used by witnesses and counterexamples -/

def sampleArticle (i : Nat) (pub : Bool) : Article :=
  { id := "article-1700000000000-s" ++ toString i
    title := "Sample title " ++ toString i
    content := "some sample body text"
    keywords := ["kw"]
    metaDescription := "md"
    metaTitle := "mt"
    imageUrl := none
    inlineImages := []
    savedAt := 1700000000000
    published := pub
    publishedTo := if pub then ["ghost"] else []
    publishedAt := if pub then some 1700000000000 else none
    wordCount := 4 }

/-- A session holding five articles of which the fifth is published. -/
def sampleSession5 : SessionState :=
  { articles := [sampleArticle 1 false, sampleArticle 2 false,
      sampleArticle 3 false, sampleArticle 4 false, sampleArticle 5 true] }

def sampleConfig : ProjectConfig :=
  { content :=
      { default_word_count := some 1500
        reading_level := some 8
        include_images := some true }
    brand := { voice := some "friendly", target_audience := some "developers" }
    visual_style := { image_aesthetic := some "minimal", colors := some ["#101010"] }
    seo := { primary_keywords := some ["sample keyword"], geo_focus := none }
    site :=
      { niche := some "tech"
        name := some "TechSite"
        url := some "https://techsite.example"
        description := none } }

def sampleProject : Project := { config := some sampleConfig }

def sampleEnv : PlannerEnv :=
  { hasGhost := true
    hasWordPress := false
    hasImageGen := true
    externalMcps := []
    keywordResearchHints := none }


/-- A publisher pair for witnesses: Ghost succeeds, WordPress throws. -/
def sampleGhostPub : GhostPayload → PubOutcome :=
  fun _ => .success "https://ghost.example/post/1"

def sampleWpPub : WPPayload → PubOutcome :=
  fun _ => .failure "WordPress auth failed"

/-- A session holding two unpublished articles. -/
def sampleSession2 : SessionState :=
  { articles := [sampleArticle 1 false, sampleArticle 2 false] }


/-! ## Core session operations (for the cross-operation invariant) -/

/-- One invocation of a core session-mutating operation, carrying its
external inputs (publishers, folder data, fresh ids, the clock). -/
inductive SessionOp where
  | save (title content : String) (keywords : List String)
      (metaDescription : String) (freshId : String)
      (folderResult : Option String) (nowMs : Nat)
  | publish (ghostPub : GhostPayload → PubOutcome)
      (wpPub : WPPayload → PubOutcome) (hasGhost hasWP : Bool)
      (platforms : List String) (status category : String)
      (articleNumbers : List Int) (nowMs : Nat)
  | remove (articleNumbers : List Int) (nowMs : Nat)
  | load (folderName : String) (folder : Option FolderData)
      (freshId : String) (nowMs : Nat)
  | clear (confirm : Bool)

/-- Apply one operation through the corresponding handler. -/
def applyOp (op : SessionOp) (s : SessionState)
    (fs : Option PersistedSession) :
    SessionState × Option PersistedSession :=
  match op with
  | .save t c k m fid fr now => handleSaveContent t c k m fid fr now s fs
  | .publish gp wp hg hw pl st cat nums now =>
    ((handlePublishContent gp wp hg hw pl st cat nums now s fs).1,
      (handlePublishContent gp wp hg hw pl st cat nums now s fs).2.1)
  | .remove nums now =>
    ((handleRemoveArticle nums now s fs).1,
      (handleRemoveArticle nums now s fs).2.1)
  | .load fn fd fid now =>
    ((handleLoadContent fn fd fid now s fs).1,
      (handleLoadContent fn fd fid now s fs).2.1)
  | .clear confirm =>
    ((handleClearSession confirm s fs).1,
      (handleClearSession confirm s fs).2.1)

/-- The id-generation side condition: `generateArticleId` values are assumed
fresh for the session (the source draws them from a timestamp plus a random
suffix). -/
def opFreshId : SessionOp → SessionState → Prop
  | .save _ _ _ _ fid _ _, s => fid ∉ s.articles.map Article.id
  | .load _ _ fid _, s => fid ∉ s.articles.map Article.id
  | _, _ => True

/-! ## Helper lemmas -/

theorem string_append_assoc (a b c : String) : a ++ b ++ c = a ++ (b ++ c) := by
  cases a; cases b; cases c
  show String.mk _ = String.mk _
  simp [String.append, List.append_assoc]

theorem string_data_append (a b : String) : (a ++ b).data = a.data ++ b.data := rfl

theorem startsWith_self_append (n post : List Char) :
    startsWith n (n ++ post) = true := by
  induction n with
  | nil => rfl
  | cons c cs ih => simp [startsWith, ih]

theorem containsSub_append_self (needle post : List Char) :
    containsSub needle (needle ++ post) = true := by
  cases h : needle ++ post with
  | nil =>
    rcases List.append_eq_nil.mp h with ⟨h1, h2⟩
    subst h1
    subst h2
    rfl
  | cons c cs =>
    simp only [containsSub, Bool.or_eq_true]
    left
    rw [← h]
    exact startsWith_self_append needle post

theorem containsSub_of_decomp (needle pre post : List Char) :
    containsSub needle (pre ++ needle ++ post) = true := by
  induction pre with
  | nil => simpa using containsSub_append_self needle post
  | cons c cs ih =>
    simp only [List.cons_append, containsSub, Bool.or_eq_true]
    right
    exact ih

/-- Soundness direction used to refute substring occurrence: if the search
function says `false`, then there is no decomposition. -/
theorem not_carries_of_containsSub_false (n c : Nat) (instr : String)
    (h : containsSub ("ARTICLE " ++ toString n ++ " OF " ++ toString c).data
      instr.data = false) : ¬ carriesIndexAndTotal n c instr := by
  rintro ⟨pre, post, hdecomp⟩
  have : containsSub ("ARTICLE " ++ toString n ++ " OF " ++ toString c).data
      instr.data = true := by
    rw [hdecomp]
    rw [string_data_append, string_data_append]
    exact containsSub_of_decomp _ _ _
  rw [h] at this
  exact Bool.false_ne_true this

theorem go_step_resp_retry (oracle : Nat → AttemptOutcome) (mR tO : Nat)
    (url : String) (attempt : Nat) (lastErr : Option (String × String))
    (st : Nat) (ra : Option Nat)
    (hres : oracle attempt = .resp st ra) (hret : isRetryableStatus st = true)
    (hlt : attempt < mR) :
    fetchRetryGo oracle mR tO url attempt lastErr =
      ⟨.resp st ra :: (fetchRetryGo oracle mR tO url (attempt + 1) lastErr).attempts,
        statusRetryDelay ra attempt ::
          (fetchRetryGo oracle mR tO url (attempt + 1) lastErr).delays,
        (fetchRetryGo oracle mR tO url (attempt + 1) lastErr).result⟩ := by
  rw [fetchRetryGo]
  simp [hres, hret, hlt]

theorem go_step_resp_last (oracle : Nat → AttemptOutcome) (mR tO : Nat)
    (url : String) (attempt : Nat) (lastErr : Option (String × String))
    (st : Nat) (ra : Option Nat)
    (hres : oracle attempt = .resp st ra) (hret : isRetryableStatus st = true)
    (hge : ¬ attempt < mR) :
    fetchRetryGo oracle mR tO url attempt lastErr =
      ⟨[.resp st ra], [], .returned st ra⟩ := by
  rw [fetchRetryGo]
  simp [hres, hret, hge]

theorem go_step_resp_done (oracle : Nat → AttemptOutcome) (mR tO : Nat)
    (url : String) (attempt : Nat) (lastErr : Option (String × String))
    (st : Nat) (ra : Option Nat)
    (hres : oracle attempt = .resp st ra) (hret : isRetryableStatus st = false) :
    fetchRetryGo oracle mR tO url attempt lastErr =
      ⟨[.resp st ra], [], .returned st ra⟩ := by
  rw [fetchRetryGo]
  simp [hres, hret]

theorem go_step_abort (oracle : Nat → AttemptOutcome) (mR tO : Nat)
    (url : String) (attempt : Nat) (lastErr : Option (String × String))
    (msg : String) (hres : oracle attempt = .err "AbortError" msg) :
    fetchRetryGo oracle mR tO url attempt lastErr =
      ⟨[.err "AbortError" msg], [], .threwTimeout tO url⟩ := by
  rw [fetchRetryGo]
  simp [hres]

theorem go_step_err_retry (oracle : Nat → AttemptOutcome) (mR tO : Nat)
    (url : String) (attempt : Nat) (lastErr : Option (String × String))
    (nm msg : String) (hres : oracle attempt = .err nm msg)
    (hnm : nm ≠ "AbortError") (hlt : attempt < mR) :
    fetchRetryGo oracle mR tO url attempt lastErr =
      ⟨.err nm msg ::
          (fetchRetryGo oracle mR tO url (attempt + 1) (some (nm, msg))).attempts,
        2 ^ attempt * 1000 ::
          (fetchRetryGo oracle mR tO url (attempt + 1) (some (nm, msg))).delays,
        (fetchRetryGo oracle mR tO url (attempt + 1) (some (nm, msg))).result⟩ := by
  rw [fetchRetryGo]
  simp [hres, hnm, hlt]

theorem go_step_err_last (oracle : Nat → AttemptOutcome) (mR tO : Nat)
    (url : String) (attempt : Nat) (lastErr : Option (String × String))
    (nm msg : String) (hres : oracle attempt = .err nm msg)
    (hnm : nm ≠ "AbortError") (hge : ¬ attempt < mR) :
    fetchRetryGo oracle mR tO url attempt lastErr =
      ⟨[.err nm msg], [], .threwLast nm msg⟩ := by
  rw [fetchRetryGo]
  simp [hres, hnm, hge]

theorem go_attempts_len_pos (oracle : Nat → AttemptOutcome) (mR tO : Nat)
    (url : String) (attempt : Nat) (lastErr : Option (String × String)) :
    1 ≤ (fetchRetryGo oracle mR tO url attempt lastErr).attempts.length := by
  cases hres : oracle attempt with
  | resp st ra =>
    cases hret : isRetryableStatus st with
    | true =>
      by_cases hlt : attempt < mR
      · rw [go_step_resp_retry oracle mR tO url attempt lastErr st ra hres hret hlt]
        simp
      · rw [go_step_resp_last oracle mR tO url attempt lastErr st ra hres hret hlt]
        simp
    | false =>
      rw [go_step_resp_done oracle mR tO url attempt lastErr st ra hres hret]
      simp
  | err nm msg =>
    by_cases hnm : nm = "AbortError"
    · subst hnm
      rw [go_step_abort oracle mR tO url attempt lastErr msg hres]
      simp
    · by_cases hlt : attempt < mR
      · rw [go_step_err_retry oracle mR tO url attempt lastErr nm msg hres hnm hlt]
        simp
      · rw [go_step_err_last oracle mR tO url attempt lastErr nm msg hres hnm hlt]
        simp

theorem go_attempts_get (oracle : Nat → AttemptOutcome) (mR tO : Nat)
    (url : String) (attempt : Nat) (lastErr : Option (String × String)) :
    ∀ j, j < (fetchRetryGo oracle mR tO url attempt lastErr).attempts.length →
      (fetchRetryGo oracle mR tO url attempt lastErr).attempts[j]? =
        some (oracle (attempt + j)) := by
  induction attempt, lastErr using fetchRetryGo.induct oracle mR tO url with
  | case1 attempt lastErr st ra hres hret hlt ih =>
    rw [go_step_resp_retry oracle mR tO url attempt lastErr st ra hres hret hlt]
    intro j hj
    cases j with
    | zero => simpa using hres.symm
    | succ j' =>
      simp only [List.getElem?_cons_succ]
      simp only [List.length_cons, Nat.add_lt_add_iff_right] at hj
      rw [ih j' hj]
      ring_nf
  | case2 attempt lastErr st ra hres hret hge =>
    rw [go_step_resp_last oracle mR tO url attempt lastErr st ra hres hret hge]
    intro j hj
    simp only [List.length_singleton, Nat.lt_one_iff] at hj
    subst hj
    simpa using hres.symm
  | case3 attempt lastErr st ra hres hret =>
    rw [go_step_resp_done oracle mR tO url attempt lastErr st ra hres
      (by simpa using hret)]
    intro j hj
    simp only [List.length_singleton, Nat.lt_one_iff] at hj
    subst hj
    simpa using hres.symm
  | case4 attempt lastErr msg hres =>
    rw [go_step_abort oracle mR tO url attempt lastErr msg hres]
    intro j hj
    simp only [List.length_singleton, Nat.lt_one_iff] at hj
    subst hj
    simpa using hres.symm
  | case5 attempt lastErr nm msg hres hnm hlt ih =>
    rw [go_step_err_retry oracle mR tO url attempt lastErr nm msg hres hnm hlt]
    intro j hj
    cases j with
    | zero => simpa using hres.symm
    | succ j' =>
      simp only [List.getElem?_cons_succ]
      simp only [List.length_cons, Nat.add_lt_add_iff_right] at hj
      rw [ih j' hj]
      ring_nf
  | case6 attempt lastErr nm msg hres hnm hge =>
    rw [go_step_err_last oracle mR tO url attempt lastErr nm msg hres hnm hge]
    intro j hj
    simp only [List.length_singleton, Nat.lt_one_iff] at hj
    subst hj
    simpa using hres.symm

theorem go_delays_len (oracle : Nat → AttemptOutcome) (mR tO : Nat)
    (url : String) (attempt : Nat) (lastErr : Option (String × String)) :
    (fetchRetryGo oracle mR tO url attempt lastErr).delays.length + 1 =
      (fetchRetryGo oracle mR tO url attempt lastErr).attempts.length := by
  induction attempt, lastErr using fetchRetryGo.induct oracle mR tO url with
  | case1 attempt lastErr st ra hres hret hlt ih =>
    rw [go_step_resp_retry oracle mR tO url attempt lastErr st ra hres hret hlt]
    simpa using ih
  | case2 attempt lastErr st ra hres hret hge =>
    rw [go_step_resp_last oracle mR tO url attempt lastErr st ra hres hret hge]
    rfl
  | case3 attempt lastErr st ra hres hret =>
    rw [go_step_resp_done oracle mR tO url attempt lastErr st ra hres
      (by simpa using hret)]
    rfl
  | case4 attempt lastErr msg hres =>
    rw [go_step_abort oracle mR tO url attempt lastErr msg hres]
    rfl
  | case5 attempt lastErr nm msg hres hnm hlt ih =>
    rw [go_step_err_retry oracle mR tO url attempt lastErr nm msg hres hnm hlt]
    simpa using ih
  | case6 attempt lastErr nm msg hres hnm hge =>
    rw [go_step_err_last oracle mR tO url attempt lastErr nm msg hres hnm hge]
    rfl

theorem go_delays_get (oracle : Nat → AttemptOutcome) (mR tO : Nat)
    (url : String) (attempt : Nat) (lastErr : Option (String × String)) :
    ∀ j, j < (fetchRetryGo oracle mR tO url attempt lastErr).delays.length →
      (fetchRetryGo oracle mR tO url attempt lastErr).delays[j]? =
        some (retryDelayFor (oracle (attempt + j)) (attempt + j)) := by
  induction attempt, lastErr using fetchRetryGo.induct oracle mR tO url with
  | case1 attempt lastErr st ra hres hret hlt ih =>
    rw [go_step_resp_retry oracle mR tO url attempt lastErr st ra hres hret hlt]
    intro j hj
    cases j with
    | zero => simp [retryDelayFor, hres]
    | succ j' =>
      simp only [List.getElem?_cons_succ]
      simp only [List.length_cons, Nat.add_lt_add_iff_right] at hj
      rw [ih j' hj]
      ring_nf
  | case2 attempt lastErr st ra hres hret hge =>
    rw [go_step_resp_last oracle mR tO url attempt lastErr st ra hres hret hge]
    intro j hj
    simp at hj
  | case3 attempt lastErr st ra hres hret =>
    rw [go_step_resp_done oracle mR tO url attempt lastErr st ra hres
      (by simpa using hret)]
    intro j hj
    simp at hj
  | case4 attempt lastErr msg hres =>
    rw [go_step_abort oracle mR tO url attempt lastErr msg hres]
    intro j hj
    simp at hj
  | case5 attempt lastErr nm msg hres hnm hlt ih =>
    rw [go_step_err_retry oracle mR tO url attempt lastErr nm msg hres hnm hlt]
    intro j hj
    cases j with
    | zero => simp [retryDelayFor, hres]
    | succ j' =>
      simp only [List.getElem?_cons_succ]
      simp only [List.length_cons, Nat.add_lt_add_iff_right] at hj
      rw [ih j' hj]
      ring_nf
  | case6 attempt lastErr nm msg hres hnm hge =>
    rw [go_step_err_last oracle mR tO url attempt lastErr nm msg hres hnm hge]
    intro j hj
    simp at hj

theorem go_step_iff (oracle : Nat → AttemptOutcome) (mR tO : Nat)
    (url : String) (attempt : Nat) (lastErr : Option (String × String)) :
    ∀ j, (j + 1 < (fetchRetryGo oracle mR tO url attempt lastErr).attempts.length)
      ↔ (j < (fetchRetryGo oracle mR tO url attempt lastErr).attempts.length ∧
          shouldRetryOutcome (oracle (attempt + j)) = true ∧ attempt + j < mR) := by
  induction attempt, lastErr using fetchRetryGo.induct oracle mR tO url with
  | case1 attempt lastErr st ra hres hret hlt ih =>
    rw [go_step_resp_retry oracle mR tO url attempt lastErr st ra hres hret hlt]
    intro j
    cases j with
    | zero =>
      simp only [List.length_cons, zero_add, Nat.lt_add_one_iff, Nat.add_zero]
      constructor
      · intro _
        refine ⟨by omega, ?_, hlt⟩
        simp [shouldRetryOutcome, hres, hret]
      · intro _
        exact go_attempts_len_pos oracle mR tO url (attempt + 1) lastErr
    | succ j' =>
      simp only [List.length_cons, Nat.add_lt_add_iff_right]
      rw [ih j']
      constructor
      · rintro ⟨h1, h2, h3⟩
        exact ⟨h1, by ring_nf; ring_nf at h2; exact h2, by omega⟩
      · rintro ⟨h1, h2, h3⟩
        exact ⟨h1, by ring_nf; ring_nf at h2; exact h2, by omega⟩
  | case2 attempt lastErr st ra hres hret hge =>
    rw [go_step_resp_last oracle mR tO url attempt lastErr st ra hres hret hge]
    intro j
    simp only [List.length_singleton]
    constructor
    · omega
    · rintro ⟨h1, _, h3⟩
      omega
  | case3 attempt lastErr st ra hres hret =>
    rw [go_step_resp_done oracle mR tO url attempt lastErr st ra hres
      (by simpa using hret)]
    intro j
    simp only [List.length_singleton]
    constructor
    · omega
    · rintro ⟨h1, h2, _⟩
      interval_cases j
      simp [shouldRetryOutcome, hres] at h2
      simp [h2] at hret
  | case4 attempt lastErr msg hres =>
    rw [go_step_abort oracle mR tO url attempt lastErr msg hres]
    intro j
    simp only [List.length_singleton]
    constructor
    · omega
    · rintro ⟨h1, h2, _⟩
      interval_cases j
      simp [shouldRetryOutcome, hres] at h2
  | case5 attempt lastErr nm msg hres hnm hlt ih =>
    rw [go_step_err_retry oracle mR tO url attempt lastErr nm msg hres hnm hlt]
    intro j
    cases j with
    | zero =>
      simp only [List.length_cons, zero_add, Nat.lt_add_one_iff, Nat.add_zero]
      constructor
      · intro _
        refine ⟨by omega, ?_, hlt⟩
        simp [shouldRetryOutcome, hres, hnm]
      · intro _
        exact go_attempts_len_pos oracle mR tO url (attempt + 1) (some (nm, msg))
    | succ j' =>
      simp only [List.length_cons, Nat.add_lt_add_iff_right]
      rw [ih j']
      constructor
      · rintro ⟨h1, h2, h3⟩
        exact ⟨h1, by ring_nf; ring_nf at h2; exact h2, by omega⟩
      · rintro ⟨h1, h2, h3⟩
        exact ⟨h1, by ring_nf; ring_nf at h2; exact h2, by omega⟩
  | case6 attempt lastErr nm msg hres hnm hge =>
    rw [go_step_err_last oracle mR tO url attempt lastErr nm msg hres hnm hge]
    intro j
    simp only [List.length_singleton]
    constructor
    · omega
    · rintro ⟨h1, _, h3⟩
      omega

theorem go_abort_result (oracle : Nat → AttemptOutcome) (mR tO : Nat)
    (url : String) (attempt : Nat) (lastErr : Option (String × String)) :
    ∀ j msg, j < (fetchRetryGo oracle mR tO url attempt lastErr).attempts.length →
      oracle (attempt + j) = .err "AbortError" msg →
      (fetchRetryGo oracle mR tO url attempt lastErr).attempts.length = j + 1 ∧
        (fetchRetryGo oracle mR tO url attempt lastErr).result =
          .threwTimeout tO url := by
  induction attempt, lastErr using fetchRetryGo.induct oracle mR tO url with
  | case1 attempt lastErr st ra hres hret hlt ih =>
    rw [go_step_resp_retry oracle mR tO url attempt lastErr st ra hres hret hlt]
    intro j msg hj habort
    cases j with
    | zero =>
      rw [Nat.add_zero] at habort
      rw [habort] at hres
      exact absurd hres (by simp)
    | succ j' =>
      simp only [List.length_cons, Nat.add_lt_add_iff_right] at hj
      have habort' : oracle (attempt + 1 + j') = .err "AbortError" msg := by
        rw [show attempt + 1 + j' = attempt + (j' + 1) by omega]
        exact habort
      have := ih j' msg hj habort'
      simp only [List.length_cons]
      exact ⟨by omega, this.2⟩
  | case2 attempt lastErr st ra hres hret hge =>
    rw [go_step_resp_last oracle mR tO url attempt lastErr st ra hres hret hge]
    intro j msg hj habort
    simp only [List.length_singleton, Nat.lt_one_iff] at hj
    subst hj
    rw [Nat.add_zero] at habort
    rw [habort] at hres
    exact absurd hres (by simp)
  | case3 attempt lastErr st ra hres hret =>
    rw [go_step_resp_done oracle mR tO url attempt lastErr st ra hres
      (by simpa using hret)]
    intro j msg hj habort
    simp only [List.length_singleton, Nat.lt_one_iff] at hj
    subst hj
    rw [Nat.add_zero] at habort
    rw [habort] at hres
    exact absurd hres (by simp)
  | case4 attempt lastErr msg0 hres =>
    rw [go_step_abort oracle mR tO url attempt lastErr msg0 hres]
    intro j msg hj habort
    simp only [List.length_singleton, Nat.lt_one_iff] at hj
    subst hj
    exact ⟨rfl, rfl⟩
  | case5 attempt lastErr nm msg0 hres hnm hlt ih =>
    rw [go_step_err_retry oracle mR tO url attempt lastErr nm msg0 hres hnm hlt]
    intro j msg hj habort
    cases j with
    | zero =>
      rw [Nat.add_zero] at habort
      rw [habort] at hres
      simp only [AttemptOutcome.err.injEq] at hres
      exact absurd hres.1.symm hnm
    | succ j' =>
      simp only [List.length_cons, Nat.add_lt_add_iff_right] at hj
      have habort' : oracle (attempt + 1 + j') = .err "AbortError" msg := by
        rw [show attempt + 1 + j' = attempt + (j' + 1) by omega]
        exact habort
      have := ih j' msg hj habort'
      simp only [List.length_cons]
      exact ⟨by omega, this.2⟩
  | case6 attempt lastErr nm msg0 hres hnm hge =>
    rw [go_step_err_last oracle mR tO url attempt lastErr nm msg0 hres hnm hge]
    intro j msg hj habort
    simp only [List.length_singleton, Nat.lt_one_iff] at hj
    subst hj
    rw [Nat.add_zero] at habort
    rw [habort] at hres
    simp only [AttemptOutcome.err.injEq] at hres
    exact absurd hres.1.symm hnm

theorem go_last_resp (oracle : Nat → AttemptOutcome) (mR tO : Nat)
    (url : String) (attempt : Nat) (lastErr : Option (String × String)) :
    ∀ j st ra, (fetchRetryGo oracle mR tO url attempt lastErr).attempts.length = j + 1 →
      oracle (attempt + j) = .resp st ra →
      (fetchRetryGo oracle mR tO url attempt lastErr).result = .returned st ra := by
  induction attempt, lastErr using fetchRetryGo.induct oracle mR tO url with
  | case1 attempt lastErr st0 ra0 hres hret hlt ih =>
    rw [go_step_resp_retry oracle mR tO url attempt lastErr st0 ra0 hres hret hlt]
    intro j st ra hlen hlast
    cases j with
    | zero =>
      simp only [List.length_cons, Nat.add_right_cancel_iff] at hlen
      have := go_attempts_len_pos oracle mR tO url (attempt + 1) lastErr
      omega
    | succ j' =>
      simp only [List.length_cons, Nat.add_right_cancel_iff] at hlen
      have hlast' : oracle (attempt + 1 + j') = .resp st ra := by
        rw [show attempt + 1 + j' = attempt + (j' + 1) by omega]
        exact hlast
      exact ih j' st ra hlen hlast'
  | case2 attempt lastErr st0 ra0 hres hret hge =>
    rw [go_step_resp_last oracle mR tO url attempt lastErr st0 ra0 hres hret hge]
    intro j st ra hlen hlast
    simp only [List.length_singleton, Nat.add_right_cancel_iff] at hlen
    have hj : j = 0 := by omega
    subst hj
    rw [Nat.add_zero] at hlast
    rw [hlast] at hres
    simp only [AttemptOutcome.resp.injEq] at hres
    rw [hres.1, hres.2]
  | case3 attempt lastErr st0 ra0 hres hret =>
    rw [go_step_resp_done oracle mR tO url attempt lastErr st0 ra0 hres
      (by simpa using hret)]
    intro j st ra hlen hlast
    simp only [List.length_singleton, Nat.add_right_cancel_iff] at hlen
    have hj : j = 0 := by omega
    subst hj
    rw [Nat.add_zero] at hlast
    rw [hlast] at hres
    simp only [AttemptOutcome.resp.injEq] at hres
    rw [hres.1, hres.2]
  | case4 attempt lastErr msg0 hres =>
    rw [go_step_abort oracle mR tO url attempt lastErr msg0 hres]
    intro j st ra hlen hlast
    simp only [List.length_singleton, Nat.add_right_cancel_iff] at hlen
    have hj : j = 0 := by omega
    subst hj
    rw [Nat.add_zero] at hlast
    rw [hlast] at hres
    exact absurd hres (by simp)
  | case5 attempt lastErr nm msg0 hres hnm hlt ih =>
    rw [go_step_err_retry oracle mR tO url attempt lastErr nm msg0 hres hnm hlt]
    intro j st ra hlen hlast
    cases j with
    | zero =>
      simp only [List.length_cons, Nat.add_right_cancel_iff] at hlen
      have := go_attempts_len_pos oracle mR tO url (attempt + 1) (some (nm, msg0))
      omega
    | succ j' =>
      simp only [List.length_cons, Nat.add_right_cancel_iff] at hlen
      have hlast' : oracle (attempt + 1 + j') = .resp st ra := by
        rw [show attempt + 1 + j' = attempt + (j' + 1) by omega]
        exact hlast
      exact ih j' st ra hlen hlast'
  | case6 attempt lastErr nm msg0 hres hnm hge =>
    rw [go_step_err_last oracle mR tO url attempt lastErr nm msg0 hres hnm hge]
    intro j st ra hlen hlast
    simp only [List.length_singleton, Nat.add_right_cancel_iff] at hlen
    have hj : j = 0 := by omega
    subst hj
    rw [Nat.add_zero] at hlast
    rw [hlast] at hres
    exact absurd hres (by simp)

theorem go_last_err (oracle : Nat → AttemptOutcome) (mR tO : Nat)
    (url : String) (attempt : Nat) (lastErr : Option (String × String)) :
    ∀ j nm msg, (fetchRetryGo oracle mR tO url attempt lastErr).attempts.length = j + 1 →
      oracle (attempt + j) = .err nm msg → nm ≠ "AbortError" →
      (fetchRetryGo oracle mR tO url attempt lastErr).result = .threwLast nm msg := by
  induction attempt, lastErr using fetchRetryGo.induct oracle mR tO url with
  | case1 attempt lastErr st0 ra0 hres hret hlt ih =>
    rw [go_step_resp_retry oracle mR tO url attempt lastErr st0 ra0 hres hret hlt]
    intro j nm msg hlen hlast hnm
    cases j with
    | zero =>
      simp only [List.length_cons, Nat.add_right_cancel_iff] at hlen
      have := go_attempts_len_pos oracle mR tO url (attempt + 1) lastErr
      omega
    | succ j' =>
      simp only [List.length_cons, Nat.add_right_cancel_iff] at hlen
      have hlast' : oracle (attempt + 1 + j') = .err nm msg := by
        rw [show attempt + 1 + j' = attempt + (j' + 1) by omega]
        exact hlast
      exact ih j' nm msg hlen hlast' hnm
  | case2 attempt lastErr st0 ra0 hres hret hge =>
    rw [go_step_resp_last oracle mR tO url attempt lastErr st0 ra0 hres hret hge]
    intro j nm msg hlen hlast hnm
    simp only [List.length_singleton, Nat.add_right_cancel_iff] at hlen
    have hj : j = 0 := by omega
    subst hj
    rw [Nat.add_zero] at hlast
    rw [hlast] at hres
    exact absurd hres (by simp)
  | case3 attempt lastErr st0 ra0 hres hret =>
    rw [go_step_resp_done oracle mR tO url attempt lastErr st0 ra0 hres
      (by simpa using hret)]
    intro j nm msg hlen hlast hnm
    simp only [List.length_singleton, Nat.add_right_cancel_iff] at hlen
    have hj : j = 0 := by omega
    subst hj
    rw [Nat.add_zero] at hlast
    rw [hlast] at hres
    exact absurd hres (by simp)
  | case4 attempt lastErr msg0 hres =>
    rw [go_step_abort oracle mR tO url attempt lastErr msg0 hres]
    intro j nm msg hlen hlast hnm
    simp only [List.length_singleton, Nat.add_right_cancel_iff] at hlen
    have hj : j = 0 := by omega
    subst hj
    rw [Nat.add_zero] at hlast
    rw [hlast] at hres
    simp only [AttemptOutcome.err.injEq] at hres
    exact absurd hres.1 hnm
  | case5 attempt lastErr nm0 msg0 hres hnm0 hlt ih =>
    rw [go_step_err_retry oracle mR tO url attempt lastErr nm0 msg0 hres hnm0 hlt]
    intro j nm msg hlen hlast hnm
    cases j with
    | zero =>
      simp only [List.length_cons, Nat.add_right_cancel_iff] at hlen
      have := go_attempts_len_pos oracle mR tO url (attempt + 1) (some (nm0, msg0))
      omega
    | succ j' =>
      simp only [List.length_cons, Nat.add_right_cancel_iff] at hlen
      have hlast' : oracle (attempt + 1 + j') = .err nm msg := by
        rw [show attempt + 1 + j' = attempt + (j' + 1) by omega]
        exact hlast
      exact ih j' nm msg hlen hlast' hnm
  | case6 attempt lastErr nm0 msg0 hres hnm0 hge =>
    rw [go_step_err_last oracle mR tO url attempt lastErr nm0 msg0 hres hnm0 hge]
    intro j nm msg hlen hlast hnm
    simp only [List.length_singleton, Nat.add_right_cancel_iff] at hlen
    have hj : j = 0 := by omega
    subst hj
    rw [Nat.add_zero] at hlast
    rw [hlast] at hres
    simp only [AttemptOutcome.err.injEq] at hres
    rw [hres.1, hres.2]

/-! ## Claim theorems: resilient HTTP client -/

/-- C6: `fetchWithRetry` retries an attempt iff the response status is ≥ 500
or exactly 429, or the attempt failed with a non-timeout network error; the
delay before a retry is the `Retry-After` header value converted from seconds
to milliseconds when supplied, otherwise `2^attempt` seconds; after
`maxRetries` attempts are exhausted the last response (for a retryable
status) is returned or the last error is thrown; in particular a 500 response
followed by a 200 response within `maxRetries` yields the 200 response. -/
theorem fetchWithRetry_retry_policy (oracle : Nat → AttemptOutcome)
    (mR tO : Nat) (url : String) (hmR : 1 ≤ mR) :
    RetryTraceSpec oracle mR tO url ∧
      (fetchWithRetry ex500then200 3 tO url).result = .returned 200 none := by
  constructor
  · unfold RetryTraceSpec
    have hne : ¬ mR = 0 := by omega
    rw [fetchWithRetry]
    simp only [hne, if_false]
    refine ⟨?_, ?_, ?_, ?_, ?_, ?_⟩
    · intro j hj
      exact go_attempts_get oracle mR tO url 1 none j hj
    · intro j
      exact go_step_iff oracle mR tO url 1 none j
    · exact go_delays_len oracle mR tO url 1 none
    · intro j hj
      exact go_delays_get oracle mR tO url 1 none j hj
    · intro j st ra hlen hlast
      exact go_last_resp oracle mR tO url 1 none j st ra hlen hlast
    · intro j nm msg hlen hlast hnm
      exact go_last_err oracle mR tO url 1 none j nm msg hlen hlast hnm
  · rw [fetchWithRetry]
    simp only [OfNat.ofNat_ne_zero, if_false]
    rw [go_step_resp_retry ex500then200 3 tO url 1 none 500 none rfl rfl
      (by omega)]
    rw [go_step_resp_done ex500then200 3 tO url 2 none 200 none rfl rfl]

/-- Witness for C6 at `maxRetries = 3`. -/
theorem fetchWithRetry_retry_policy_witness :
    RetryTraceSpec ex500then200 3 30000 "https://api.example.com" ∧
      (fetchWithRetry ex500then200 3 30000 "https://api.example.com").result =
        .returned 200 none :=
  fetchWithRetry_retry_policy ex500then200 3 30000 "https://api.example.com"
    (by decide)

/-- C7: `fetchWithTimeout` turns an attempt that exceeds `timeoutMs` into the
aborted outcome (the `AbortController` fires and the fetch rejects with an
`AbortError`), and `fetchWithRetry` converts that abort into the distinct
timeout error and raises it immediately: no retry, no backoff delay, no
further attempts. -/
theorem timeout_raised_immediately :
    (∀ u, fetchWithTimeout false u =
      .err "AbortError" "This operation was aborted") ∧
    ∀ (within : Nat → Bool) (underlying : Nat → AttemptOutcome)
      (mR tO : Nat) (url : String),
      TimeoutRaiseSpec within underlying mR tO url := by
  constructor
  · intro u
    rfl
  · intro within underlying mR tO url
    unfold TimeoutRaiseSpec
    intro j hj hwithin
    by_cases hmR : mR = 0
    · subst hmR
      unfold fetchWithRetry at hj
      simp at hj
    · unfold fetchWithRetry at hj ⊢
      simp only [hmR, if_false] at hj ⊢
      have habort : timeoutOracle within underlying (1 + j)
          = .err "AbortError" "This operation was aborted" := by
        simp only [timeoutOracle, hwithin, fetchWithTimeout,
          Bool.false_eq_true, if_false]
      have h1 := go_abort_result (timeoutOracle within underlying)
        mR tO url 1 none j "This operation was aborted" hj habort
      have h2 := go_delays_len (timeoutOracle within underlying)
        mR tO url 1 none
      exact ⟨h1.1, h1.2, by omega⟩

/-- Witness for C7: the first attempt times out; the call makes exactly one
attempt and throws the timeout error. -/
theorem timeout_raised_immediately_witness :
    (fetchWithRetry (timeoutOracle (fun _ => false)
        (fun _ => AttemptOutcome.resp 200 none)) 3 30000 "https://x").attempts.length = 0 + 1 ∧
      (fetchWithRetry (timeoutOracle (fun _ => false)
        (fun _ => AttemptOutcome.resp 200 none)) 3 30000 "https://x").result =
        .threwTimeout 30000 "https://x" ∧
      (fetchWithRetry (timeoutOracle (fun _ => false)
        (fun _ => AttemptOutcome.resp 200 none)) 3 30000 "https://x").delays.length = 0 := by
  refine timeout_raised_immediately.2 (fun _ => false)
    (fun _ => AttemptOutcome.resp 200 none) 3 30000 "https://x" 0 ?_ rfl
  unfold fetchWithRetry
  simp only [OfNat.ofNat_ne_zero, if_false]
  exact go_attempts_len_pos _ 3 30000 "https://x" 1 none

/-! ## Claim theorems: session store -/

/-- C4: for every persisted session whose `savedAt` lies more than 24 hours
before the current time, `restoreSession` rejects the restore (returns
`false`) and leaves the in-memory state exactly as it was — in particular,
loading at startup from the default state leaves the default empty session;
no field of an expired session is ever partially restored. -/
theorem expired_session_never_restored (saved : PersistedSession)
    (nowMs savedTime : Nat) (s : SessionState)
    (hsaved : saved.savedAt = some savedTime)
    (hexp : SESSION_EXPIRY_MS < nowMs - savedTime) :
    restoreSession (some saved) nowMs s = (false, s) ∧
      restoreSession (some saved) nowMs initialSessionState =
        (false, initialSessionState) := by
  have hx : isSessionExpired saved.savedAt nowMs = true := by
    simp [isSessionExpired, hsaved, hexp]
  constructor <;> simp [restoreSession, hx]

/-- Witness for C4: a session saved 25 hours ago is rejected and the state
stays at the defaults. -/
theorem expired_session_never_restored_witness :
    restoreSession (some ⟨sampleSession5, some 0⟩) (25 * 60 * 60 * 1000)
        initialSessionState = (false, initialSessionState) ∧
      restoreSession (some ⟨sampleSession5, some 0⟩) (25 * 60 * 60 * 1000)
        initialSessionState = (false, initialSessionState) :=
  (expired_session_never_restored ⟨sampleSession5, some 0⟩
    (25 * 60 * 60 * 1000) 0 initialSessionState rfl (by decide)).imp
    (fun _ => (expired_session_never_restored ⟨sampleSession5, some 0⟩
      (25 * 60 * 60 * 1000) 0 initialSessionState rfl (by decide)).2)
    (fun h => h)

/-- C8 (refuting evaluation): with confirmation, `clear_session` resets every
in-memory field to its default, but the persisted session file is left on
disk untouched — `resetSession` in the modular session-state service does not
call `clearSessionFile`, and neither does `handleClearSession` or
`handleCreateContent`, so the stale file (still holding the cleared articles)
survives and remains restorable. -/
theorem clear_session_leaves_file_on_disk :
    (handleClearSession true sampleSession5
        (some ⟨sampleSession5, some 1000⟩)).1 = initialSessionState ∧
      (handleClearSession true sampleSession5
        (some ⟨sampleSession5, some 1000⟩)).2.1 =
          some ⟨sampleSession5, some 1000⟩ ∧
      (handleClearSession true sampleSession5
        (some ⟨sampleSession5, some 1000⟩)).2.1 ≠ clearSessionFile
          (some ⟨sampleSession5, some 1000⟩) := by
  refine ⟨rfl, rfl, ?_⟩
  simp [handleClearSession, clearSessionFile]

/-! ## Claim theorems: workflow planner derivations -/

/-- C5: in every built plan, `shouldGenerateImages` is exactly
`wantImages AND config.includeImages AND imageCredentialAvailable`; under it,
`content_images = floor(targetWordCount / 300)` and
`total_images = 1 + content_images`, else both are 0; in particular a
1500-word target with images enabled gives 6 total images. -/
theorem shouldGenerateImages_totalImages (env : PlannerEnv) (nowMs : Nat)
    (request : String) (count : Nat) (publishTo : List String)
    (withImages : Bool) (project : Option Project) (plan : WorkflowPlan)
    (hok : buildWorkflowPlan env nowMs request count publishTo withImages
      project = .ok plan) :
    (∃ cfg, project.bind (fun p => p.config) = some cfg ∧
      plan.settings.content_images =
        (if withImages && jsTruthyBool cfg.content.include_images &&
            env.hasImageGen
          then cfg.content.default_word_count.getD 0 / 300 else 0) ∧
      plan.settings.total_images =
        (if withImages && jsTruthyBool cfg.content.include_images &&
            env.hasImageGen
          then 1 + cfg.content.default_word_count.getD 0 / 300 else 0)) ∧
    (buildWorkflowPlan sampleEnv 0 "write" 1 [] true sampleProject).map
      (fun p => p.settings.total_images) = .ok 6 := by
  constructor
  · unfold buildWorkflowPlan at hok
    cases hcfg : project.bind (fun p => p.config) with
    | none =>
      rw [hcfg] at hok
      simp [validateProjectConfig] at hok
    | some cfg =>
      rw [hcfg] at hok
      cases hv : validateProjectConfig (some cfg) with
      | error e =>
        rw [hv] at hok
        simp at hok
      | ok w =>
        rw [hv] at hok
        simp only [Option.getD_some, Except.ok.injEq] at hok
        refine ⟨cfg, rfl, ?_⟩
        rw [← hok]
        by_cases hsgi : (withImages && jsTruthyBool
            cfg.content.include_images && env.hasImageGen) = true
        · simp [buildPlanCore, hsgi]
        · simp only [Bool.not_eq_true] at hsgi
          simp [buildPlanCore, hsgi]
  · rfl

/-- Witness for C5 at the sample 1500-word configuration. -/
theorem shouldGenerateImages_totalImages_witness :
    (∃ cfg, (some sampleProject).bind (fun p => p.config) = some cfg ∧
      (buildPlanCore sampleEnv 0 "write" 1 [] true sampleConfig).settings.content_images =
        (if true && jsTruthyBool cfg.content.include_images &&
            sampleEnv.hasImageGen
          then cfg.content.default_word_count.getD 0 / 300 else 0) ∧
      (buildPlanCore sampleEnv 0 "write" 1 [] true sampleConfig).settings.total_images =
        (if true && jsTruthyBool cfg.content.include_images &&
            sampleEnv.hasImageGen
          then 1 + cfg.content.default_word_count.getD 0 / 300 else 0)) ∧
    (buildWorkflowPlan sampleEnv 0 "write" 1 [] true sampleProject).map
      (fun p => p.settings.total_images) = .ok 6 :=
  shouldGenerateImages_totalImages sampleEnv 0 "write" 1 [] true
    (some sampleProject)
    (buildPlanCore sampleEnv 0 "write" 1 [] true sampleConfig) rfl

/-! ## Claim C3 helper lemmas -/

theorem insertDesc_perm (x : Int) (l : List Int) :
    (insertDesc x l).Perm (x :: l) := by
  induction l with
  | nil => exact List.Perm.refl _
  | cons y ys ih =>
    unfold insertDesc
    by_cases h : x ≥ y
    · simp [h]
    · simp only [h, if_false]
      exact (List.Perm.cons y ih).trans (List.Perm.swap x y ys)

theorem sortDesc_perm (l : List Int) : (sortDesc l).Perm l := by
  induction l with
  | nil => exact List.Perm.refl _
  | cons x xs ih =>
    exact (insertDesc_perm x (sortDesc xs)).trans (List.Perm.cons x ih)

theorem mem_insertDesc {b x : Int} {l : List Int} :
    b ∈ insertDesc x l ↔ b = x ∨ b ∈ l := by
  rw [(insertDesc_perm x l).mem_iff]
  simp

theorem insertDesc_sorted (x : Int) (l : List Int)
    (h : l.Sorted (· ≥ ·)) : (insertDesc x l).Sorted (· ≥ ·) := by
  induction l with
  | nil => simp [insertDesc]
  | cons y ys ih =>
    unfold insertDesc
    rw [List.sorted_cons] at h
    by_cases hxy : x ≥ y
    · simp only [hxy, if_true]
      rw [List.sorted_cons]
      refine ⟨?_, ?_⟩
      · intro b hb
        rcases List.mem_cons.mp hb with hb | hb
        · omega
        · have := h.1 b hb
          omega
      · rw [List.sorted_cons]
        exact h
    · simp only [hxy, if_false]
      rw [List.sorted_cons]
      refine ⟨?_, ih h.2⟩
      intro b hb
      rcases mem_insertDesc.mp hb with hb | hb
      · omega
      · exact h.1 b hb

theorem sortDesc_sorted (l : List Int) : (sortDesc l).Sorted (· ≥ ·) := by
  induction l with
  | nil => simp [sortDesc]
  | cons x xs ih => exact insertDesc_sorted x (sortDesc xs) ih

theorem removeLoop_nums_perm (nums : List Int) :
    ∀ (arts : List Article) (removed : List RemovedEntry)
      (skipped : List SkippedEntry),
      (((removeLoop nums arts removed skipped).2.1.map RemovedEntry.num)
        ++ ((removeLoop nums arts removed skipped).2.2.map SkippedEntry.num)).Perm
        ((removed.map RemovedEntry.num ++ skipped.map SkippedEntry.num) ++ nums) := by
  induction nums with
  | nil =>
    intro arts removed skipped
    simp [removeLoop]
  | cons num rest ih =>
    intro arts removed skipped
    unfold removeLoop
    by_cases h : num - 1 < 0
    · simp only [h, if_true]
      refine (ih arts removed (skipped ++ [⟨num, "not found", none⟩])).trans ?_
      simp only [List.map_append, List.map_cons, List.map_nil,
        List.append_assoc, List.singleton_append, List.cons_append,
        List.nil_append]
      exact List.Perm.append_left _ (List.Perm.append_left _
        (List.Perm.refl _))
    · simp only [h, if_false]
      cases hidx : arts[(num - 1).toNat]? with
      | none =>
        refine (ih arts removed
          (skipped ++ [⟨num, "not found", none⟩])).trans ?_
        simp only [List.map_append, List.map_cons, List.map_nil,
          List.append_assoc, List.singleton_append, List.cons_append,
          List.nil_append]
        exact List.Perm.append_left _ (List.Perm.append_left _
          (List.Perm.refl _))
      | some a =>
        by_cases hp : a.published
        · simp only [hp, if_true]
          refine (ih arts removed (skipped ++ [⟨num, "already published",
            some a.title⟩])).trans ?_
          simp only [List.map_append, List.map_cons, List.map_nil,
            List.append_assoc, List.singleton_append, List.cons_append,
            List.nil_append]
          exact List.Perm.append_left _ (List.Perm.append_left _
            (List.Perm.refl _))
        · simp only [hp, Bool.false_eq_true, if_false]
          refine (ih (arts.eraseIdx (num - 1).toNat)
            (removed ++ [⟨num, a.title⟩]) skipped).trans ?_
          simp only [List.map_append, List.map_cons, List.map_nil,
            List.append_assoc, List.singleton_append, List.cons_append,
            List.nil_append]
          exact List.Perm.append_left _ List.perm_middle.symm

theorem removeLoop_sublists (nums : List Int) :
    ∀ (arts : List Article) (removed : List RemovedEntry)
      (skipped : List SkippedEntry),
      ∃ sub1 sub2,
        (removeLoop nums arts removed skipped).2.1.map RemovedEntry.num =
          removed.map RemovedEntry.num ++ sub1 ∧ sub1.Sublist nums ∧
        (removeLoop nums arts removed skipped).2.2.map SkippedEntry.num =
          skipped.map SkippedEntry.num ++ sub2 ∧ sub2.Sublist nums := by
  induction nums with
  | nil =>
    intro arts removed skipped
    exact ⟨[], [], by simp [removeLoop], by simp, by simp [removeLoop],
      by simp⟩
  | cons num rest ih =>
    intro arts removed skipped
    unfold removeLoop
    by_cases h : num - 1 < 0
    · simp only [h, if_true]
      obtain ⟨s1, s2, h1, h2, h3, h4⟩ :=
        ih arts removed (skipped ++ [⟨num, "not found", none⟩])
      refine ⟨s1, num :: s2, h1, h2.cons num, ?_, h4.cons₂ num⟩
      rw [h3]
      simp
    · simp only [h, if_false]
      cases hidx : arts[(num - 1).toNat]? with
      | none =>
        obtain ⟨s1, s2, h1, h2, h3, h4⟩ :=
          ih arts removed (skipped ++ [⟨num, "not found", none⟩])
        refine ⟨s1, num :: s2, h1, h2.cons num, ?_, h4.cons₂ num⟩
        rw [h3]
        simp
      | some a =>
        by_cases hp : a.published
        · simp only [hp, if_true]
          obtain ⟨s1, s2, h1, h2, h3, h4⟩ := ih arts removed
            (skipped ++ [⟨num, "already published", some a.title⟩])
          refine ⟨s1, num :: s2, h1, h2.cons num, ?_, h4.cons₂ num⟩
          rw [h3]
          simp
        · simp only [hp, Bool.false_eq_true, if_false]
          obtain ⟨s1, s2, h1, h2, h3, h4⟩ := ih (arts.eraseIdx (num - 1).toNat)
            (removed ++ [⟨num, a.title⟩]) skipped
          refine ⟨num :: s1, s2, ?_, h2.cons₂ num, h3, h4.cons num⟩
          rw [h1]
          simp

theorem removeLoop_reasons (nums : List Int) :
    ∀ (arts : List Article) (removed : List RemovedEntry)
      (skipped : List SkippedEntry),
      ∀ e ∈ (removeLoop nums arts removed skipped).2.2,
        e ∈ skipped ∨ e.reason = "not found" ∨
          e.reason = "already published" := by
  induction nums with
  | nil =>
    intro arts removed skipped e he
    simp only [removeLoop] at he
    exact Or.inl he
  | cons num rest ih =>
    intro arts removed skipped e he
    unfold removeLoop at he
    by_cases h : num - 1 < 0
    · simp only [h, if_true] at he
      rcases ih arts removed _ e he with hmem | hr
      · rcases List.mem_append.mp hmem with hmem | hmem
        · exact Or.inl hmem
        · simp only [List.mem_singleton] at hmem
          subst hmem
          exact Or.inr (Or.inl rfl)
      · exact Or.inr hr
    · simp only [h, if_false] at he
      cases hidx : arts[(num - 1).toNat]? with
      | none =>
        rw [hidx] at he
        rcases ih arts removed _ e he with hmem | hr
        · rcases List.mem_append.mp hmem with hmem | hmem
          · exact Or.inl hmem
          · simp only [List.mem_singleton] at hmem
            subst hmem
            exact Or.inr (Or.inl rfl)
        · exact Or.inr hr
      | some a =>
        rw [hidx] at he
        by_cases hp : a.published
        · simp only [hp, if_true] at he
          rcases ih arts removed _ e he with hmem | hr
          · rcases List.mem_append.mp hmem with hmem | hmem
            · exact Or.inl hmem
            · simp only [List.mem_singleton] at hmem
              subst hmem
              exact Or.inr (Or.inr rfl)
          · exact Or.inr hr
        · simp only [hp, Bool.false_eq_true, if_false] at he
          exact ih _ _ _ e he

theorem removeLoop_length (nums : List Int) :
    ∀ (arts : List Article) (removed : List RemovedEntry)
      (skipped : List SkippedEntry),
      (removeLoop nums arts removed skipped).1.length +
          (removeLoop nums arts removed skipped).2.1.length =
        arts.length + removed.length := by
  induction nums with
  | nil =>
    intro arts removed skipped
    simp [removeLoop]
  | cons num rest ih =>
    intro arts removed skipped
    unfold removeLoop
    by_cases h : num - 1 < 0
    · simp only [h, if_true]
      exact ih arts removed _
    · simp only [h, if_false]
      cases hidx : arts[(num - 1).toNat]? with
      | none => exact ih arts removed _
      | some a =>
        by_cases hp : a.published
        · simp only [hp, if_true]
          exact ih arts removed _
        · simp only [hp, Bool.false_eq_true, if_false]
          have hlt : (num - 1).toNat < arts.length :=
            (List.getElem?_eq_some_iff.mp hidx).1
          have := ih (arts.eraseIdx (num - 1).toNat)
            (removed ++ [⟨num, a.title⟩]) skipped
          rw [this]
          rw [List.length_eraseIdx_of_lt hlt]
          simp only [List.length_append, List.length_singleton]
          omega

/-- C3: `remove_article` processes 1-based display indices in descending
numeric order; an out-of-range index or one referencing an already-published
article is skipped and reported (no error is raised — the handler is total
and every given index lands in exactly one of `removed`/`skipped`); the
result is the structured `{removed, skipped}` pair; and removing `[2, 5]`
from a 5-article session whose fifth article is published removes only
article 2, skips 5 with reason `already published`, and leaves 4 articles. -/
theorem remove_article_descending_skip :
    (∀ (nums : List Int) (nowMs : Nat) (s : SessionState)
      (fs : Option PersistedSession), nums ≠ [] →
      ∃ removed skipped,
        (handleRemoveArticle nums nowMs s fs).2.2 = some (removed, skipped) ∧
        (removed.map RemovedEntry.num
          ++ skipped.map SkippedEntry.num).Perm nums ∧
        (removed.map RemovedEntry.num).Sorted (· ≥ ·) ∧
        (skipped.map SkippedEntry.num).Sorted (· ≥ ·) ∧
        (∀ e ∈ skipped,
          e.reason = "not found" ∨ e.reason = "already published") ∧
        (handleRemoveArticle nums nowMs s fs).1.articles.length
          + removed.length = s.articles.length) ∧
    (∀ (a1 a2 a3 a4 a5 : Article) (nowMs : Nat) (s : SessionState)
      (fs : Option PersistedSession),
      s.articles = [a1, a2, a3, a4, a5] →
      a5.published = true → a2.published = false →
      handleRemoveArticle [2, 5] nowMs s fs =
        ({ s with articles := [a1, a3, a4, a5] },
          saveSessionFS { s with articles := [a1, a3, a4, a5] } nowMs,
          some ([⟨2, a2.title⟩],
            [⟨5, "already published", some a5.title⟩]))) := by
  constructor
  · intro nums nowMs s fs hne
    have hie : nums.isEmpty = false := by
      cases nums with
      | nil => exact absurd rfl hne
      | cons a l => rfl
    unfold handleRemoveArticle
    simp only [hie, Bool.false_eq_true, if_false]
    refine ⟨(removeLoop (sortDesc nums) s.articles [] []).2.1,
      (removeLoop (sortDesc nums) s.articles [] []).2.2, rfl, ?_, ?_, ?_, ?_, ?_⟩
    · have h1 := removeLoop_nums_perm (sortDesc nums) s.articles [] []
      simp only [List.map_nil, List.nil_append] at h1
      exact h1.trans (sortDesc_perm nums)
    · obtain ⟨s1, s2, h1, h2, h3, h4⟩ :=
        removeLoop_sublists (sortDesc nums) s.articles [] []
      simp only [List.map_nil, List.nil_append] at h1 h3
      rw [h1]
      exact (sortDesc_sorted nums).sublist h2
    · obtain ⟨s1, s2, h1, h2, h3, h4⟩ :=
        removeLoop_sublists (sortDesc nums) s.articles [] []
      simp only [List.map_nil, List.nil_append] at h1 h3
      rw [h3]
      exact (sortDesc_sorted nums).sublist h4
    · intro e he
      rcases removeLoop_reasons (sortDesc nums) s.articles [] [] e he with
        hmem | hr
      · simp at hmem
      · exact hr
    · have := removeLoop_length (sortDesc nums) s.articles [] []
      simpa using this
  · intro a1 a2 a3 a4 a5 nowMs s fs hs ha5 ha2
    have hsort : sortDesc [2, 5] = ([5, 2] : List Int) := by decide
    unfold handleRemoveArticle
    rw [hsort, hs]
    have step1 : removeLoop [5, 2] [a1, a2, a3, a4, a5] [] [] =
        ([a1, a3, a4, a5], [⟨2, a2.title⟩],
          [⟨5, "already published", some a5.title⟩]) := by
      have e1 : ((5 : Int) - 1).toNat = 4 := rfl
      have e2 : ((2 : Int) - 1).toNat = 1 := rfl
      simp [removeLoop, e1, e2, ha5, ha2, List.get_eq_getElem]
    rw [step1]
    rfl

/-- Witness for C3: the concrete 5-article sample session. -/
theorem remove_article_descending_skip_witness :
    handleRemoveArticle [2, 5] 123 sampleSession5 none =
      ({ sampleSession5 with articles := [sampleArticle 1 false,
          sampleArticle 3 false, sampleArticle 4 false,
          sampleArticle 5 true] },
        saveSessionFS { sampleSession5 with articles := [sampleArticle 1 false,
          sampleArticle 3 false, sampleArticle 4 false,
          sampleArticle 5 true] } 123,
        some ([⟨2, (sampleArticle 2 false).title⟩],
          [⟨5, "already published", some (sampleArticle 5 true).title⟩])) :=
  remove_article_descending_skip.2 (sampleArticle 1 false)
    (sampleArticle 2 false) (sampleArticle 3 false) (sampleArticle 4 false)
    (sampleArticle 5 true) 123 sampleSession5 none rfl rfl rfl

/-! ## Claim C10 / C2 helper lemmas -/

theorem publishLoop_report_ids (ghostPub : GhostPayload → PubOutcome)
    (wpPub : WPPayload → PubOutcome) (sg sw : Bool) (status category : String)
    (nowMs : Nat) :
    ∀ (sel articles : List Article),
      (publishLoop ghostPub wpPub sg sw status category nowMs sel
        articles).2.map ArticleResults.articleId = sel.map Article.id := by
  intro sel
  induction sel with
  | nil =>
    intro articles
    simp [publishLoop]
  | cons a rest ih =>
    intro articles
    simp only [publishLoop, List.map_cons]
    rw [ih]
    rfl

/-- C10: when `publish_content` is called with an explicit non-empty
`article_numbers` list, out-of-range numbers (and already-published ones) are
silently dropped from the selection; if every number is dropped the handler
returns the informative no-op response and leaves the session untouched;
otherwise the batch report carries exactly one entry per selected article. -/
theorem publish_explicit_numbers_dropped
    (ghostPub : GhostPayload → PubOutcome) (wpPub : WPPayload → PubOutcome)
    (hasGhost hasWP : Bool) (platforms : List String)
    (status category : String) (nums : List Int) (nowMs : Nat)
    (s : SessionState) (fs : Option PersistedSession) (hne : nums ≠ []) :
    (∀ a : Article, a ∈ selectByNumbers s.articles nums ↔
      ((∃ num ∈ nums, jsIndex s.articles (num - 1) = some a) ∧
        a.published = false)) ∧
    (selectByNumbers s.articles nums = [] →
      handlePublishContent ghostPub wpPub hasGhost hasWP platforms status
        category nums nowMs s fs = (s, fs, .noopInvalidNumbers nums)) ∧
    (selectByNumbers s.articles nums ≠ [] →
      ∃ results,
        (handlePublishContent ghostPub wpPub hasGhost hasWP platforms status
          category nums nowMs s fs).2.2 = .report results ∧
        results.map ArticleResults.articleId =
          (selectByNumbers s.articles nums).map Article.id) := by
  have hlen : nums.length > 0 := by
    cases nums with
    | nil => exact absurd rfl hne
    | cons a l => simp
  refine ⟨?_, ?_, ?_⟩
  · intro a
    unfold selectByNumbers
    rw [List.mem_filter, List.mem_filterMap]
    constructor
    · rintro ⟨⟨num, hnum, hidx⟩, hpub⟩
      exact ⟨⟨num, hnum, hidx⟩, by simpa using hpub⟩
    · rintro ⟨⟨num, hnum, hidx⟩, hpub⟩
      exact ⟨⟨num, hnum, hidx⟩, by simpa using hpub⟩
  · intro hempty
    unfold handlePublishContent
    simp only [hlen, if_true, hempty, List.isEmpty_nil, if_pos]
  · intro hnonempty
    unfold handlePublishContent
    have hie : (selectByNumbers s.articles nums).isEmpty = false := by
      cases h : selectByNumbers s.articles nums with
      | nil => exact absurd h hnonempty
      | cons a l => rfl
    simp only [hlen, if_true, hie, Bool.false_eq_true, if_false]
    exact ⟨_, rfl, publishLoop_report_ids ghostPub wpPub _ _ status category
      nowMs _ _⟩

/-- Witness for C10 on the sample session: `[9, 5]` resolves to nothing
(9 is out of range, 5 is published), so the call is a no-op. -/
theorem publish_explicit_numbers_dropped_witness :
    (selectByNumbers sampleSession5.articles [9, 5] = [] →
      handlePublishContent (fun _ => .success "ok") (fun _ => .success "ok")
        true true ["all"] "draft" "" [9, 5] 123 sampleSession5 none =
        (sampleSession5, none, .noopInvalidNumbers [9, 5])) ∧
    handlePublishContent (fun _ => .success "ok") (fun _ => .success "ok")
      true true ["all"] "draft" "" [9, 5] 123 sampleSession5 none =
      (sampleSession5, none, .noopInvalidNumbers [9, 5]) := by
  have h := publish_explicit_numbers_dropped (fun _ => .success "ok")
    (fun _ => .success "ok") true true ["all"] "draft" "" [9, 5] 123
    sampleSession5 none (by decide)
  exact ⟨h.2.1, h.2.1 (by decide)⟩

/-- C2: publishing a batch in which Ghost succeeds and WordPress fails for
an article marks that article `published = true` with
`publishedTo = ["ghost"]` (the lowercased names of exactly the succeeding
platforms) and stamps `publishedAt`; the batch report still carries the
WordPress failure message; and neither that platform failure nor the
article's partial failure aborts processing of the remaining platforms or of
the second article of the batch (whose report entry carries its own
per-platform outcomes). -/
theorem publish_partial_failure (ghostPub : GhostPayload → PubOutcome)
    (wpPub : WPPayload → PubOutcome) (status category : String) (nowMs : Nat)
    (s : SessionState) (fs : Option PersistedSession) (a1 a2 : Article)
    (u msg : String)
    (hs : s.articles = [a1, a2])
    (h1 : a1.published = false) (h2 : a2.published = false)
    (hid : a1.id ≠ a2.id) (hc1 : a1.id ≠ "current") (hc2 : a2.id ≠ "current")
    (hg : ghostPub ⟨a1.title,
      injectImagesIntoContent a1.content a1.inlineImages, status, a1.keywords,
      a1.imageUrl⟩ = .success u)
    (hw : wpPub ⟨a1.title,
      injectImagesIntoContent a1.content a1.inlineImages, status,
      (if category = "" then [] else [category]), a1.keywords,
      a1.imageUrl⟩ = .failure msg) :
    ∃ (arts : List Article) (r2 : ArticleResults),
      handlePublishContent ghostPub wpPub true true ["all"] status category
        [] nowMs s fs =
        ({ s with articles := arts },
          saveSessionFS { s with articles := arts } nowMs,
          .report [⟨a1.title, a1.id,
            jsWordCount a1 (injectImagesIntoContent a1.content a1.inlineImages),
            [⟨"Ghost", .success u⟩, ⟨"WordPress", .failure msg⟩]⟩, r2]) ∧
      arts.length = 2 ∧
      arts[0]? = some { a1 with published := true, publishedTo := ["ghost"], publishedAt := some nowMs } ∧
      (arts[1]?).map Article.id = some a2.id ∧
      r2.articleId = a2.id ∧
      r2.platforms = [⟨"Ghost", ghostPub ⟨a2.title,
          injectImagesIntoContent a2.content a2.inlineImages, status,
          a2.keywords, a2.imageUrl⟩⟩,
        ⟨"WordPress", wpPub ⟨a2.title,
          injectImagesIntoContent a2.content a2.inlineImages, status,
          (if category = "" then [] else [category]), a2.keywords,
          a2.imageUrl⟩⟩] := by
  have har1 : publishArticleResults ghostPub wpPub true true status category a1
      = ⟨a1.title, a1.id,
        jsWordCount a1 (injectImagesIntoContent a1.content a1.inlineImages),
        [⟨"Ghost", .success u⟩, ⟨"WordPress", .failure msg⟩]⟩ := by
    simp [publishArticleResults, hg, hw]
  have har2 : publishArticleResults ghostPub wpPub true true status category a2
      = ⟨a2.title, a2.id,
        jsWordCount a2 (injectImagesIntoContent a2.content a2.inlineImages),
        [⟨"Ghost", ghostPub ⟨a2.title,
          injectImagesIntoContent a2.content a2.inlineImages, status,
          a2.keywords, a2.imageUrl⟩⟩,
        ⟨"WordPress", wpPub ⟨a2.title,
          injectImagesIntoContent a2.content a2.inlineImages, status,
          (if category = "" then [] else [category]), a2.keywords,
          a2.imageUrl⟩⟩]⟩ := by
    simp [publishArticleResults]
  have hupd : markPublishedById [a1, a2] a1.id ["ghost"] nowMs =
      [{ a1 with published := true, publishedTo := ["ghost"], publishedAt := some nowMs }, a2] := by
    unfold markPublishedById
    simp [List.findIdx?_cons]
  have hmark2 : ∀ pubTo,
      (markPublishedById [{ a1 with published := true, publishedTo := ["ghost"], publishedAt := some nowMs }, a2]
        a2.id pubTo nowMs).length = 2 ∧
      (markPublishedById [{ a1 with published := true, publishedTo := ["ghost"], publishedAt := some nowMs }, a2]
        a2.id pubTo nowMs)[0]? = some { a1 with published := true, publishedTo := ["ghost"], publishedAt := some nowMs } ∧
      ((markPublishedById [{ a1 with published := true, publishedTo := ["ghost"], publishedAt := some nowMs }, a2]
        a2.id pubTo nowMs)[1]?).map Article.id = some a2.id := by
    intro pubTo
    unfold markPublishedById
    have hbeq : (({ a1 with published := true, publishedTo := ["ghost"], publishedAt := some nowMs } : Article).id == a2.id) = false := by
      simp only [beq_eq_false_iff_ne]
      exact hid
    simp [List.findIdx?_cons, hbeq]
  have hsel : List.filter (fun a => !a.published) [a1, a2] = [a1, a2] := by
    simp [h1, h2]
  have hany1 : (([⟨"Ghost", .success u⟩,
      ⟨"WordPress", .failure msg⟩] : List PlatformResult).any
        (fun p => p.outcome.isSuccess)) = true := by
    simp [PubOutcome.isSuccess]
  have hlower : ((([⟨"Ghost", .success u⟩,
      ⟨"WordPress", .failure msg⟩] : List PlatformResult).filter
        (fun p => p.outcome.isSuccess)).map
          (fun p => jsToLowerCase p.platform)) = ["ghost"] := by
    simp [PubOutcome.isSuccess]
    decide
  by_cases hS2 : ((publishArticleResults ghostPub wpPub true true status
      category a2).platforms.any (fun p => p.outcome.isSuccess)) = true
  · have hloop : publishLoop ghostPub wpPub true true status category nowMs
        [a1, a2] [a1, a2] =
        (markPublishedById
          [{ a1 with published := true, publishedTo := ["ghost"], publishedAt := some nowMs }, a2]
          a2.id
          (((publishArticleResults ghostPub wpPub true true status category
            a2).platforms.filter (fun p => p.outcome.isSuccess)).map
              (fun p => jsToLowerCase p.platform)) nowMs,
          [⟨a1.title, a1.id,
            jsWordCount a1 (injectImagesIntoContent a1.content a1.inlineImages),
            [⟨"Ghost", .success u⟩, ⟨"WordPress", .failure msg⟩]⟩,
            publishArticleResults ghostPub wpPub true true status category a2]) := by
      simp only [publishLoop, har1, hany1, hc1, hS2, ne_eq,
        not_false_iff, and_self, if_true, hlower, hupd, hc2]
    refine ⟨markPublishedById
        [{ a1 with published := true, publishedTo := ["ghost"], publishedAt := some nowMs }, a2]
        a2.id
        (((publishArticleResults ghostPub wpPub true true status category
          a2).platforms.filter (fun p => p.outcome.isSuccess)).map
            (fun p => jsToLowerCase p.platform)) nowMs,
      publishArticleResults ghostPub wpPub true true status category a2,
      ?_, (hmark2 _).1, (hmark2 _).2.1, (hmark2 _).2.2, ?_, ?_⟩
    · unfold handlePublishContent
      simp only [List.length_nil, gt_iff_lt, lt_self_iff_false, if_false,
        hsel, List.isEmpty_cons, Bool.false_eq_true, false_and, and_false,
        hs,
        show (true && ((["all"] : List String).contains "all" ||
          (["all"] : List String).contains "ghost")) = true from by decide,
        show (true && ((["all"] : List String).contains "all" ||
          (["all"] : List String).contains "wordpress")) = true from by decide]
      rw [hloop]
    · rw [har2]
    · rw [har2]
  · have hloop : publishLoop ghostPub wpPub true true status category nowMs
        [a1, a2] [a1, a2] =
        ([{ a1 with published := true, publishedTo := ["ghost"], publishedAt := some nowMs }, a2],
          [⟨a1.title, a1.id,
            jsWordCount a1 (injectImagesIntoContent a1.content a1.inlineImages),
            [⟨"Ghost", .success u⟩, ⟨"WordPress", .failure msg⟩]⟩,
            publishArticleResults ghostPub wpPub true true status category a2]) := by
      simp only [publishLoop, har1, hany1, hc1, hS2, ne_eq,
        not_false_iff, and_self, if_true, hlower, hupd, Bool.false_eq_true,
        false_and, if_false]
    refine ⟨[{ a1 with published := true, publishedTo := ["ghost"], publishedAt := some nowMs }, a2],
      publishArticleResults ghostPub wpPub true true status category a2,
      ?_, by simp, by simp, ?_, ?_, ?_⟩
    · unfold handlePublishContent
      simp only [List.length_nil, gt_iff_lt, lt_self_iff_false, if_false,
        hsel, List.isEmpty_cons, Bool.false_eq_true, false_and, and_false,
        hs,
        show (true && ((["all"] : List String).contains "all" ||
          (["all"] : List String).contains "ghost")) = true from by decide,
        show (true && ((["all"] : List String).contains "all" ||
          (["all"] : List String).contains "wordpress")) = true from by decide]
      rw [hloop]
    · simp
    · rw [har2]
    · rw [har2]

/-- Witness for C2: two sample articles, Ghost succeeding and WordPress
failing on both. -/
theorem publish_partial_failure_witness :
    ∃ (arts : List Article) (r2 : ArticleResults),
      handlePublishContent sampleGhostPub sampleWpPub true true ["all"]
        "draft" "" [] 123 sampleSession2 none =
        ({ sampleSession2 with articles := arts },
          saveSessionFS { sampleSession2 with articles := arts } 123,
          .report [⟨(sampleArticle 1 false).title, (sampleArticle 1 false).id,
            jsWordCount (sampleArticle 1 false)
              (injectImagesIntoContent (sampleArticle 1 false).content
                (sampleArticle 1 false).inlineImages),
            [⟨"Ghost", .success "https://ghost.example/post/1"⟩,
              ⟨"WordPress", .failure "WordPress auth failed"⟩]⟩, r2]) ∧
      arts.length = 2 ∧
      arts[0]? = some { sampleArticle 1 false with published := true, publishedTo := ["ghost"], publishedAt := some 123 } ∧
      (arts[1]?).map Article.id = some (sampleArticle 2 false).id ∧
      r2.articleId = (sampleArticle 2 false).id ∧
      r2.platforms = [⟨"Ghost", sampleGhostPub ⟨(sampleArticle 2 false).title,
          injectImagesIntoContent (sampleArticle 2 false).content
            (sampleArticle 2 false).inlineImages, "draft",
          (sampleArticle 2 false).keywords, (sampleArticle 2 false).imageUrl⟩⟩,
        ⟨"WordPress", sampleWpPub ⟨(sampleArticle 2 false).title,
          injectImagesIntoContent (sampleArticle 2 false).content
            (sampleArticle 2 false).inlineImages, "draft",
          (if ("" : String) = "" then [] else [""]),
          (sampleArticle 2 false).keywords,
          (sampleArticle 2 false).imageUrl⟩⟩] :=
  publish_partial_failure sampleGhostPub sampleWpPub "draft" "" 123
    sampleSession2 none (sampleArticle 1 false) (sampleArticle 2 false)
    "https://ghost.example/post/1" "WordPress auth failed" rfl rfl rfl
    (by decide) (by decide) (by decide) rfl rfl

/-! ## Claim C9 helper lemmas -/

theorem article_eq_of_id_eq {l : List Article}
    (hnodup : (l.map Article.id).Nodup) :
    ∀ a ∈ l, ∀ b ∈ l, a.id = b.id → a = b := by
  induction l with
  | nil =>
    intro a ha
    simp at ha
  | cons x xs ih =>
    intro a ha b hb hab
    simp only [List.map_cons, List.nodup_cons] at hnodup
    rcases List.mem_cons.mp ha with ha | ha <;>
      rcases List.mem_cons.mp hb with hb | hb
    · rw [ha, hb]
    · exfalso
      apply hnodup.1
      rw [← ha, hab]
      exact List.mem_map_of_mem Article.id hb
    · exfalso
      apply hnodup.1
      rw [← hb, ← hab]
      exact List.mem_map_of_mem Article.id ha
    · exact ih hnodup.2 a ha b hb hab

theorem markPublishedById_getElem (articles : List Article) (aid : String)
    (pubTo : List String) (nowMs : Nat) (i : Nat) (b : Article)
    (hb : (markPublishedById articles aid pubTo nowMs)[i]? = some b) :
    ∃ a, articles[i]? = some a ∧ a.id = b.id ∧
      (a.published = true → b.published = true) := by
  unfold markPublishedById at hb
  cases hidx : articles.findIdx? (fun a => a.id == aid) with
  | none =>
    simp only [hidx] at hb
    exact ⟨b, hb, rfl, fun h => h⟩
  | some j =>
    simp only [hidx] at hb
    cases hj : articles[j]? with
    | none =>
      simp only [hj] at hb
      exact ⟨b, hb, rfl, fun h => h⟩
    | some aj =>
      simp only [hj] at hb
      rw [List.getElem?_set] at hb
      by_cases hij : j = i
      · simp only [hij, if_true] at hb
        have hlt : i < articles.length := by
          by_contra hge
          simp [hge] at hb
        simp only [hlt, if_true] at hb
        have hbv := Option.some.inj hb
        refine ⟨aj, hij ▸ hj, ?_, ?_⟩
        · rw [← hbv]
        · intro _
          rw [← hbv]
      · simp only [hij, if_false] at hb
        exact ⟨b, hb, rfl, fun h => h⟩

theorem publishLoop_getElem (ghostPub : GhostPayload → PubOutcome)
    (wpPub : WPPayload → PubOutcome) (sg sw : Bool) (status category : String)
    (nowMs : Nat) :
    ∀ (sel articles : List Article) (i : Nat) (b : Article),
      (publishLoop ghostPub wpPub sg sw status category nowMs sel
        articles).1[i]? = some b →
      ∃ a, articles[i]? = some a ∧ a.id = b.id ∧
        (a.published = true → b.published = true) := by
  intro sel
  induction sel with
  | nil =>
    intro articles i b hb
    simp only [publishLoop] at hb
    exact ⟨b, hb, rfl, fun h => h⟩
  | cons x rest ih =>
    intro articles i b hb
    simp only [publishLoop] at hb
    by_cases hcond : ((publishArticleResults ghostPub wpPub sg sw status
        category x).platforms.any (fun p => p.outcome.isSuccess)) = true ∧
        x.id ≠ "current"
    · rw [if_pos hcond] at hb
      obtain ⟨m, hm, hmid, hmimp⟩ := ih _ i b hb
      obtain ⟨a, ha, haid, haimp⟩ :=
        markPublishedById_getElem articles x.id _ nowMs i m hm
      exact ⟨a, ha, haid.trans hmid, fun h => hmimp (haimp h)⟩
    · rw [if_neg hcond] at hb
      exact ih _ i b hb

theorem removeLoop_articles_sublist (nums : List Int) :
    ∀ (arts : List Article) (removed : List RemovedEntry)
      (skipped : List SkippedEntry),
      (removeLoop nums arts removed skipped).1.Sublist arts := by
  induction nums with
  | nil =>
    intro arts removed skipped
    simp [removeLoop]
  | cons num rest ih =>
    intro arts removed skipped
    unfold removeLoop
    by_cases h : num - 1 < 0
    · simp only [h, if_true]
      exact ih arts removed _
    · simp only [h, if_false]
      cases hidx : arts[(num - 1).toNat]? with
      | none => exact ih arts removed _
      | some a =>
        by_cases hp : a.published
        · simp only [hp, if_true]
          exact ih arts removed _
        · simp only [hp, Bool.false_eq_true, if_false]
          exact (ih _ _ _).trans (List.eraseIdx_sublist _ _)

/-- C9: across the core operations (save, batch publish, remove, load,
clear/reset), once an article in the session's `articles` sequence has
`published = true`, no operation ever yields a same-id article with
`published = false`: removal skips published articles, and the publish
outcome only ever raises `published` from `false` to `true`. -/
theorem published_never_reverts (op : SessionOp) (s : SessionState)
    (fs : Option PersistedSession)
    (hnodup : (s.articles.map Article.id).Nodup) (hfresh : opFreshId op s) :
    ∀ a' ∈ (applyOp op s fs).1.articles, ∀ a ∈ s.articles,
      a'.id = a.id → a.published = true → a'.published = true := by
  cases op with
  | save t c k m fid fr now =>
    intro a' ha' a ha hid hpub
    simp only [applyOp, handleSaveContent] at ha'
    rcases List.mem_append.mp ha' with hmem | hmem
    · rw [article_eq_of_id_eq hnodup a' hmem a ha hid]
      exact hpub
    · exfalso
      simp only [List.mem_singleton] at hmem
      apply hfresh
      have hfid : a'.id = fid := by rw [hmem]
      rw [← hfid, hid]
      exact List.mem_map_of_mem Article.id ha
  | publish gp wp hg hw pl st cat nums now =>
    intro a' ha' a ha hid hpub
    simp only [applyOp] at ha'
    unfold handlePublishContent at ha'
    by_cases h1 : nums.length > 0
    · rw [if_pos h1] at ha'
      by_cases h2 : (selectByNumbers s.articles nums).isEmpty = true
      · rw [if_pos h2] at ha'
        rw [article_eq_of_id_eq hnodup a' ha' a ha hid]
        exact hpub
      · rw [if_neg h2] at ha'
        simp only at ha'
        obtain ⟨i, hi⟩ := List.getElem?_of_mem ha'
        obtain ⟨a0, ha0get, ha0id, ha0imp⟩ := publishLoop_getElem gp wp _ _
          st cat now _ s.articles i a' hi
        have ha0mem : a0 ∈ s.articles := List.getElem?_mem ha0get
        have heq : a0 = a :=
          article_eq_of_id_eq hnodup a0 ha0mem a ha (ha0id.trans hid)
        exact ha0imp (heq ▸ hpub)
    · rw [if_neg h1] at ha'
      by_cases h2 : (if (s.articles.filter (fun a => !a.published)).isEmpty =
          true ∧ jsTruthyStr s.article = true ∧ jsTruthyStr s.title = true
          then [currentPseudoArticle s]
          else s.articles.filter (fun a => !a.published)).isEmpty = true
      · rw [if_pos h2] at ha'
        rw [article_eq_of_id_eq hnodup a' ha' a ha hid]
        exact hpub
      · rw [if_neg h2] at ha'
        simp only at ha'
        obtain ⟨i, hi⟩ := List.getElem?_of_mem ha'
        obtain ⟨a0, ha0get, ha0id, ha0imp⟩ := publishLoop_getElem gp wp _ _
          st cat now _ s.articles i a' hi
        have ha0mem : a0 ∈ s.articles := List.getElem?_mem ha0get
        have heq : a0 = a :=
          article_eq_of_id_eq hnodup a0 ha0mem a ha (ha0id.trans hid)
        exact ha0imp (heq ▸ hpub)
  | remove nums now =>
    intro a' ha' a ha hid hpub
    simp only [applyOp] at ha'
    unfold handleRemoveArticle at ha'
    by_cases hne : nums.isEmpty = true
    · rw [if_pos hne] at ha'
      rw [article_eq_of_id_eq hnodup a' ha' a ha hid]
      exact hpub
    · rw [if_neg hne] at ha'
      simp only at ha'
      have hmem : a' ∈ s.articles :=
        (removeLoop_articles_sublist (sortDesc nums) s.articles [] []).subset
          ha'
      rw [article_eq_of_id_eq hnodup a' hmem a ha hid]
      exact hpub
  | load fn fd fid now =>
    intro a' ha' a ha hid hpub
    simp only [applyOp] at ha'
    unfold handleLoadContent at ha'
    by_cases hfn : fn = ""
    · rw [if_pos hfn] at ha'
      rw [article_eq_of_id_eq hnodup a' ha' a ha hid]
      exact hpub
    · rw [if_neg hfn] at ha'
      cases fd with
      | none =>
        simp only at ha'
        rw [article_eq_of_id_eq hnodup a' ha' a ha hid]
        exact hpub
      | some fdata =>
        simp only at ha'
        by_cases hex : s.articles.any
            (fun x => x.title == jsOrStr fdata.title fn) = true
        · rw [if_pos hex] at ha'
          simp only at ha'
          rw [article_eq_of_id_eq hnodup a' ha' a ha hid]
          exact hpub
        · rw [if_neg hex] at ha'
          simp only at ha'
          rcases List.mem_append.mp ha' with hmem | hmem
          · rw [article_eq_of_id_eq hnodup a' hmem a ha hid]
            exact hpub
          · exfalso
            simp only [List.mem_singleton] at hmem
            apply hfresh
            have hfid : a'.id = fid := by rw [hmem]
            rw [← hfid, hid]
            exact List.mem_map_of_mem Article.id ha
  | clear confirm =>
    intro a' ha' a ha hid hpub
    simp only [applyOp, handleClearSession] at ha'
    by_cases hc : confirm = true
    · rw [if_pos hc] at ha'
      simp [resetSession, initialSessionState] at ha'
    · rw [if_neg hc] at ha'
      rw [article_eq_of_id_eq hnodup a' ha' a ha hid]
      exact hpub

/-- Witness for C9: removing article 1 from the sample session leaves the
published fifth article published. -/
theorem published_never_reverts_witness :
    sampleArticle 5 true ∈
      (applyOp (.remove [1] 50) sampleSession5 none).1.articles ∧
    sampleArticle 5 true ∈ sampleSession5.articles ∧
    (sampleArticle 5 true).published = true := by
  have hres : (applyOp (.remove [1] 50) sampleSession5 none).1.articles =
      [sampleArticle 2 false, sampleArticle 3 false, sampleArticle 4 false,
        sampleArticle 5 true] := by rfl
  have hmem1 : sampleArticle 5 true ∈
      (applyOp (.remove [1] 50) sampleSession5 none).1.articles := by
    rw [hres]
    simp
  have hmem2 : sampleArticle 5 true ∈ sampleSession5.articles := by
    simp [sampleSession5]
  exact ⟨hmem1, hmem2,
    published_never_reverts (.remove [1] 50) sampleSession5 none (by decide)
      trivial (sampleArticle 5 true) hmem1 (sampleArticle 5 true) hmem2
      rfl rfl⟩

/-! ## Claim C1 helper lemmas -/

theorem string_empty_append (s : String) : "" ++ s = s := by
  cases s
  show String.mk _ = String.mk _
  simp [String.append]

theorem string_append_empty (s : String) : s ++ "" = s := by
  cases s
  show String.mk _ = String.mk _
  simp [String.append]

theorem carries_append_right (n c : Nat) {s : String} (t : String)
    (h : carriesIndexAndTotal n c s) : carriesIndexAndTotal n c (s ++ t) := by
  obtain ⟨pre, post, hd⟩ := h
  refine ⟨pre, post ++ t, ?_⟩
  rw [hd]
  simp [string_append_assoc]

theorem carries_append_left (n c : Nat) (s : String) {t : String}
    (h : carriesIndexAndTotal n c t) : carriesIndexAndTotal n c (s ++ t) := by
  obtain ⟨pre, post, hd⟩ := h
  refine ⟨s ++ pre, post, ?_⟩
  rw [hd]
  simp [string_append_assoc]

theorem carries_header (n c : Nat) :
    carriesIndexAndTotal n c
      ("ARTICLE " ++ toString n ++ " OF " ++ toString c) := by
  refine ⟨"", "", ?_⟩
  rw [string_empty_append, string_append_empty]

theorem contentwriteInstr_carries (count articleIndex twc : Nat)
    (rld : String) (bv ta : Option String) (sgi : Bool) (h : 1 < count) :
    carriesIndexAndTotal (articleIndex + 1) count
      (contentwriteInstr count articleIndex (articleIndex + 1) twc rld bv ta
        sgi) := by
  unfold contentwriteInstr
  iterate 30 apply carries_append_right
  rw [if_pos h]
  exact carries_append_right _ _ _ (carries_append_left _ _ _
    (carries_header _ _))

theorem numberSteps_length (ps : List ProtoStep) :
    (numberSteps ps).length = ps.length := by
  simp [numberSteps]

theorem numberSteps_map_step (ps : List ProtoStep) :
    (numberSteps ps).map (fun st => st.step) = List.range' 1 ps.length := by
  unfold numberSteps
  rw [List.map_map]
  have h1 : ((ps.enum.map Prod.fst).map (fun i => i + 1)) =
      ps.enum.map ((fun st : Step => st.step) ∘ (fun p =>
        { step := p.1 + 1, type := p.2.type, action := p.2.action,
          instruction := p.2.instruction, image_count := p.2.image_count,
          targets := p.2.targets, store := p.2.store })) := by
    rw [List.map_map]
    rfl
  rw [← h1, List.enum_map_fst, List.range'_eq_map_range]
  simp [Nat.add_comm]

theorem numberSteps_map_action (ps : List ProtoStep) :
    (numberSteps ps).map (fun st => st.action) =
      ps.map (fun q => q.action) := by
  unfold numberSteps
  rw [List.map_map]
  have h1 : ps.enum.map ((fun st : Step => st.action) ∘ (fun p =>
      { step := p.1 + 1, type := p.2.type, action := p.2.action,
        instruction := p.2.instruction, image_count := p.2.image_count,
        targets := p.2.targets, store := p.2.store })) =
      (ps.enum.map Prod.snd).map (fun q => q.action) := by
    rw [List.map_map]
    rfl
  rw [h1, List.enum_map_snd]

theorem numberSteps_filter_action (ps : List ProtoStep) (p : String → Bool) :
    ((numberSteps ps).filter (fun st => p st.action)).map
        (fun st => st.instruction) =
      (ps.filter (fun q => p q.action)).map (fun q => q.instruction) := by
  unfold numberSteps
  rw [List.filter_map, List.map_map]
  have h1 : (ps.enum.filter ((fun st : Step => p st.action) ∘ (fun p =>
      { step := p.1 + 1, type := p.2.type, action := p.2.action,
        instruction := p.2.instruction, image_count := p.2.image_count,
        targets := p.2.targets, store := p.2.store }))).map
        ((fun st : Step => st.instruction) ∘ (fun p =>
      { step := p.1 + 1, type := p.2.type, action := p.2.action,
        instruction := p.2.instruction, image_count := p.2.image_count,
        targets := p.2.targets, store := p.2.store })) =
      (ps.enum.filter (fun q => p q.2.action)).map
        (fun q => q.2.instruction) := by
    rfl
  rw [h1]
  have h2 : (ps.enum.filter (fun q => p q.2.action)).map
      (fun q => q.2.instruction) =
      ((ps.enum.map Prod.snd).filter (fun q => p q.action)).map
        (fun q => q.instruction) := by
    rw [List.filter_map, List.map_map]
    rfl
  rw [h2, List.enum_map_snd]

theorem numberSteps_filter_write (ps : List ProtoStep) :
    ((numberSteps ps).filter (fun st => st.action == "content_write")).map
        (fun st => st.instruction) =
      (ps.filter (fun q => q.action == "content_write")).map
        (fun q => q.instruction) :=
  numberSteps_filter_action ps (fun a => a == "content_write")

theorem planProtoSteps_map_action (request : String) (count : Nat)
    (targets : List String) (sgi : Bool) (cic ti twc : Nat)
    (rld kd : String) (sn su ni sd bv ta : Option String)
    (df bc : List String) (vs gf : Option String) (mi : String) :
    (planProtoSteps request count targets sgi cic ti twc rld kd sn su ni sd
        bv ta df bc vs gf mi).map (fun q => q.action) =
      ["keyword_research", "seo_strategy", "topical_map"]
        ++ (if 1 < count then ["content_calendar"] else [])
        ++ ["content_planning"]
        ++ List.replicate count "content_write"
        ++ ["quality_check", "geo_optimize"]
        ++ (if sgi then ["generate_images"] else [])
        ++ (if targets.length > 0 then ["publish"] else []) := by
  unfold planProtoSteps
  split_ifs <;>
    simp [List.map_append, List.map_map, Function.comp_def,
      List.map_const', List.length_range]

theorem planProtoSteps_filter_write (request : String) (count : Nat)
    (targets : List String) (sgi : Bool) (cic ti twc : Nat)
    (rld kd : String) (sn su ni sd bv ta : Option String)
    (df bc : List String) (vs gf : Option String) (mi : String) :
    ((planProtoSteps request count targets sgi cic ti twc rld kd sn su ni sd
        bv ta df bc vs gf mi).filter
        (fun q => q.action == "content_write")).map
        (fun q => q.instruction) =
      (List.range count).map (fun i =>
        contentwriteInstr count i (i + 1) twc rld bv ta sgi) := by
  have e0 : ("keyword_research" == "content_write") = false := by decide
  have e1 : ("seo_strategy" == "content_write") = false := by decide
  have e2 : ("topical_map" == "content_write") = false := by decide
  have e3 : ("content_calendar" == "content_write") = false := by decide
  have e4 : ("content_planning" == "content_write") = false := by decide
  have e5 : ("quality_check" == "content_write") = false := by decide
  have e6 : ("geo_optimize" == "content_write") = false := by decide
  have e7 : ("generate_images" == "content_write") = false := by decide
  have e8 : ("publish" == "content_write") = false := by decide
  have et : ("content_write" == "content_write") = true := by decide
  unfold planProtoSteps
  split_ifs <;>
    simp [List.filter_append, List.filter_map, List.map_map,
      Function.comp_def, e0, e1, e2, e3, e4, e5, e6, e7, e8, et,
      List.filter_true]

/-- **C1** (amended).  For every configuration accepted by
`buildWorkflowPlan`: the step numbers are contiguously `1..N` starting at 1;
the actions occur in the exact phase order Research (keyword research, SEO
strategy, topical map, content calendar iff `articleCount > 1`) then Creation
(one planning step, then exactly `articleCount` write steps) then
Optimization (quality check, GEO optimize) then Publishing (image generation
iff `shouldGenerateImages`, publish iff the resolved targets are non-empty),
with no gaps or placeholders; the write-step instructions are exactly the
per-index `content_write` instructions; and — the amended conjunct — when
`articleCount > 1` every write instruction carries its own 1-based article
index and the total count (`ARTICLE i OF n`).  For `articleCount = 1` the
header is omitted by the source template, refuted separately by
`workflow_plan_structure_cex`. -/
theorem workflow_plan_structure (env : PlannerEnv) (nowMs : Nat)
    (request : String) (count : Nat) (publishTo : List String)
    (withImages : Bool) (project : Option Project) (plan : WorkflowPlan)
    (hok : buildWorkflowPlan env nowMs request count publishTo withImages
      project = .ok plan) :
    ∃ cfg, project.bind (fun p => p.config) = some cfg ∧
      plan.steps.map (fun st => st.step) =
        List.range' 1 plan.steps.length ∧
      plan.steps.map (fun st => st.action) =
        ["keyword_research", "seo_strategy", "topical_map"]
          ++ (if 1 < count then ["content_calendar"] else [])
          ++ ["content_planning"]
          ++ List.replicate count "content_write"
          ++ ["quality_check", "geo_optimize"]
          ++ (if withImages && jsTruthyBool cfg.content.include_images &&
                env.hasImageGen then ["generate_images"] else [])
          ++ (if (resolveTargets publishTo env.hasGhost
                env.hasWordPress).length > 0 then ["publish"] else []) ∧
      ((plan.steps.filter (fun st => st.action == "content_write")).map
          (fun st => st.instruction)) =
        (List.range count).map (fun i =>
          contentwriteInstr count i (i + 1)
            (cfg.content.default_word_count.getD 0)
            (readingLevelDisplayOf cfg.content.reading_level)
            cfg.brand.voice cfg.brand.target_audience
            (withImages && jsTruthyBool cfg.content.include_images &&
              env.hasImageGen)) ∧
      (1 < count → ∀ i, i < count → ∀ instr,
        ((plan.steps.filter (fun st => st.action == "content_write")).map
          (fun st => st.instruction))[i]? = some instr →
        carriesIndexAndTotal (i + 1) count instr) := by
  unfold buildWorkflowPlan at hok
  cases hcfg : project.bind (fun p => p.config) with
  | none =>
    rw [hcfg] at hok
    simp [validateProjectConfig] at hok
  | some cfg =>
    rw [hcfg] at hok
    cases hv : validateProjectConfig (some cfg) with
    | error e =>
      rw [hv] at hok
      simp at hok
    | ok w =>
      rw [hv] at hok
      simp only [Option.getD_some, Except.ok.injEq] at hok
      subst hok
      have hfm : (((buildPlanCore env nowMs request count publishTo
            withImages cfg).steps.filter
            (fun st => st.action == "content_write")).map
            (fun st => st.instruction)) =
          (List.range count).map (fun i =>
            contentwriteInstr count i (i + 1)
              (cfg.content.default_word_count.getD 0)
              (readingLevelDisplayOf cfg.content.reading_level)
              cfg.brand.voice cfg.brand.target_audience
              (withImages && jsTruthyBool cfg.content.include_images &&
                env.hasImageGen)) := by
        simp only [buildPlanCore]
        rw [numberSteps_filter_write]
        apply planProtoSteps_filter_write
      refine ⟨cfg, rfl, ?_, ?_, hfm, ?_⟩
      · simp only [buildPlanCore]
        rw [numberSteps_length]
        exact numberSteps_map_step _
      · simp only [buildPlanCore]
        rw [numberSteps_map_action]
        apply planProtoSteps_map_action
      · intro hc i hi instr hins
        rw [hfm, List.getElem?_map, List.getElem?_range hi] at hins
        simp only [Option.map_some'] at hins
        have hins2 := Option.some.inj hins
        rw [← hins2]
        exact contentwriteInstr_carries count i
          (cfg.content.default_word_count.getD 0)
          (readingLevelDisplayOf cfg.content.reading_level)
          cfg.brand.voice cfg.brand.target_audience
          (withImages && jsTruthyBool cfg.content.include_images &&
            env.hasImageGen) hc

set_option maxRecDepth 100000 in
/-- **C1** counterexample to the original claim.  The sample configuration is
accepted by `buildWorkflowPlan` with `articleCount = 1`, there is exactly one
`content_write` step, and its instruction text does not contain
`ARTICLE 1 OF 1` anywhere: the `if articleCount > 1` guard in the source
template drops the progress header for single-article plans, so not every
write step carries its 1-based index and the total count. -/
theorem workflow_plan_structure_cex :
    ∃ plan,
      buildWorkflowPlan sampleEnv 0 "write" 1 [] false (some sampleProject) =
        .ok plan ∧
      ∃ instr,
        ((plan.steps.filter (fun st => st.action == "content_write")).map
          (fun st => st.instruction)) = [instr] ∧
        ¬ carriesIndexAndTotal 1 1 instr := by
  refine ⟨buildPlanCore sampleEnv 0 "write" 1 [] false sampleConfig, rfl,
    contentwriteInstr 1 0 1 1500 "Grade 8" (some "friendly")
      (some "developers") false, ?_, ?_⟩
  · rfl
  · exact not_carries_of_containsSub_false 1 1 _ (by decide)

/-- Witness for the amended C1 theorem at a concrete accepted two-article
configuration. -/
theorem workflow_plan_structure_witness :
    ∃ cfg, (some sampleProject).bind (fun p => p.config) = some cfg ∧
      (buildPlanCore sampleEnv 0 "write" 2 [] false
          sampleConfig).steps.map (fun st => st.step) =
        List.range' 1 (buildPlanCore sampleEnv 0 "write" 2 [] false
          sampleConfig).steps.length ∧
      (buildPlanCore sampleEnv 0 "write" 2 [] false
          sampleConfig).steps.map (fun st => st.action) =
        ["keyword_research", "seo_strategy", "topical_map"]
          ++ (if 1 < 2 then ["content_calendar"] else [])
          ++ ["content_planning"]
          ++ List.replicate 2 "content_write"
          ++ ["quality_check", "geo_optimize"]
          ++ (if false && jsTruthyBool cfg.content.include_images &&
                sampleEnv.hasImageGen then ["generate_images"] else [])
          ++ (if (resolveTargets [] sampleEnv.hasGhost
                sampleEnv.hasWordPress).length > 0
              then ["publish"] else []) ∧
      (((buildPlanCore sampleEnv 0 "write" 2 [] false
            sampleConfig).steps.filter
          (fun st => st.action == "content_write")).map
          (fun st => st.instruction)) =
        (List.range 2).map (fun i =>
          contentwriteInstr 2 i (i + 1)
            (cfg.content.default_word_count.getD 0)
            (readingLevelDisplayOf cfg.content.reading_level)
            cfg.brand.voice cfg.brand.target_audience
            (false && jsTruthyBool cfg.content.include_images &&
              sampleEnv.hasImageGen)) ∧
      (1 < 2 → ∀ i, i < 2 → ∀ instr,
        (((buildPlanCore sampleEnv 0 "write" 2 [] false
              sampleConfig).steps.filter
            (fun st => st.action == "content_write")).map
            (fun st => st.instruction))[i]? = some instr →
        carriesIndexAndTotal (i + 1) 2 instr) :=
  workflow_plan_structure sampleEnv 0 "write" 2 [] false
    (some sampleProject)
    (buildPlanCore sampleEnv 0 "write" 2 [] false sampleConfig) rfl
